import Mathlib

/-!
# Traceability front end: the MQTT client service and its connection supervisors

Shallow embedding of `src/frontend/src/services/mqttService.js` (class `MQTTService`)
and of the connection-supervision effect shared by the views
(`PartsManager.js`, `StationsView.js`, `OperatorsManager.js`, `MovementTracker.js`),
with the result handlers and `recentMovements` of `Dashboard.js`.

* A callback is identified by its reference (a number); what its body does when it is
  called is given by an environment `Handlers`.
* The `Map` of subscribers is an association list in insertion order.
* Everything outside the repository (the `mqtt` library, `JSON.parse`, timers) is an
  explicit part of the state or a parameter.
-/

namespace Traceability

/-! ## JavaScript values -/

/-- The JavaScript values that travel through the service: JSON documents plus `undefined`. -/
inductive Value where
  | undefined
  | null
  | bool (b : Bool)
  | num (n : Int)
  | str (s : String)
  | arr (items : List Value)
  | obj (fields : List (String × Value))

/-- Property read `v[key]` on an object value (`undefined` when absent or not an object). -/
def Value.field : Value → String → Value
  | .obj fields, key => (fields.lookup key).getD .undefined
  | _, _ => .undefined

/-- Element list of an array value (empty for every other value). -/
def Value.items : Value → List Value
  | .arr items => items
  | _ => []

/-- What can be thrown. -/
inductive Exn where
  | error (message : String)      -- `new Error(message)`
  | syntaxError                   -- thrown by `JSON.parse`
  | typeError                     -- property access on `null` / `undefined`
  | thrownBy (callback : Nat)     -- whatever a subscriber callback throws
  deriving DecidableEq, Repr

/-! ## Subscription registry (`this.subscribers`, a `Map<string, Array<function>>`) -/

abbrev Topic := String

/-- A callback reference. `indexOf` compares references, so identity is all that matters. -/
abbrev Callback := Nat

/-- The `Map`, in insertion order. -/
abbrev Registry := List (Topic × List Callback)

/-- `Map.prototype.get`. -/
def Registry.get (m : Registry) (topic : Topic) : Option (List Callback) :=
  m.lookup topic

/-- `Map.prototype.has`. -/
def Registry.has (m : Registry) (topic : Topic) : Bool :=
  (m.get topic).isSome

/-- `Map.prototype.set`; also used for the in-place mutation (`push`, `splice`) of the array
stored under an existing key. -/
def Registry.set : Registry → Topic → List Callback → Registry
  | [], topic, v => [(topic, v)]
  | (k, old) :: rest, topic, v =>
    if k == topic then (k, v) :: rest else (k, old) :: Registry.set rest topic v

/-- `Array.prototype.indexOf`: position of the first occurrence, `-1` when absent. -/
def indexOf : List Callback → Callback → Int
  | [], _ => -1
  | c :: rest, callback =>
    if c = callback then 0
    else
      let i := indexOf rest callback
      if i > -1 then i + 1 else -1

/-- `MQTTService.subscribe(topic, callback)` (mqttService.js 143-148). -/
def subscribe (subscribers : Registry) (topic : Topic) (callback : Callback) : Registry :=
  let subscribers :=
    if !subscribers.has topic then subscribers.set topic [] else subscribers
  match subscribers.get topic with
  | some callbacks => subscribers.set topic (callbacks ++ [callback])
  | none => subscribers

/-- `MQTTService.unsubscribe(topic, callback)` (mqttService.js 150-158). -/
def unsubscribe (subscribers : Registry) (topic : Topic) (callback : Callback) : Registry :=
  if subscribers.has topic then
    match subscribers.get topic with
    | some callbacks =>
      let index := indexOf callbacks callback
      if index > -1 then subscribers.set topic (callbacks.eraseIdx index.toNat)
      else subscribers
    | none => subscribers
  else subscribers

/-! ## Subscriber callbacks -/

/-- A registry operation a callback body may perform on the shared service. -/
inductive Op where
  | subscribe (topic : Topic) (callback : Callback)
  | unsubscribe (topic : Topic) (callback : Callback)
  deriving DecidableEq, Repr

/-- What one call of a callback does: the registry operations it performs, in order, and
whether it then throws instead of returning. -/
structure Outcome where
  ops : List Op
  throws : Bool
  deriving DecidableEq, Repr

/-- The body of every callback: its outcome when called with a decoded value. -/
abbrev Handlers := Callback → Value → Outcome

def applyOp (subscribers : Registry) : Op → Registry
  | .subscribe topic callback => subscribe subscribers topic callback
  | .unsubscribe topic callback => unsubscribe subscribers topic callback

def applyOps (subscribers : Registry) (ops : List Op) : Registry :=
  ops.foldl applyOp subscribers

/-- The operation leaves the handlers already registered on `topic` where they are: it is
not an `unsubscribe` on `topic`. -/
def Op.keeps (topic : Topic) : Op → Bool
  | .unsubscribe t _ => t != topic
  | .subscribe _ _ => true

/-- Called with `data`, the callback returns normally and does not unsubscribe from `topic`. -/
def returnsQuietly (handlers : Handlers) (topic : Topic) (data : Value) (callback : Callback) :
    Bool :=
  !(handlers callback data).throws && (handlers callback data).ops.all (Op.keeps topic)

/-- State of a running `forEach`. -/
structure Loop where
  subscribers : Registry
  invoked : List (Callback × Value)
  thrown : Option Exn

/-- `this.subscribers.get(topic).forEach(callback => callback(data))`, from index `k` with
`n` indices left. As `Array.prototype.forEach` does, the length is read once before the first
call (`k + n`), every index is looked up in the array as it is at that moment (an index that
is no longer present is skipped), and a throwing callback ends the loop. The array is the one
stored under `topic`: `subscribe` and `unsubscribe` mutate that same array in place. -/
def forEachFrom (handlers : Handlers) (topic : Topic) (data : Value) :
    Nat → Nat → Registry → List (Callback × Value) → Loop
  | 0, _, subscribers, invoked => ⟨subscribers, invoked, none⟩
  | n + 1, k, subscribers, invoked =>
    match (subscribers.get topic).bind (fun callbacks => callbacks.get? k) with
    | none => forEachFrom handlers topic data n (k + 1) subscribers invoked
    | some callback =>
      let out := handlers callback data
      let subscribers := applyOps subscribers out.ops
      let invoked := invoked ++ [(callback, data)]
      if out.throws then ⟨subscribers, invoked, some (.thrownBy callback)⟩
      else forEachFrom handlers topic data n (k + 1) subscribers invoked

/-- The `try` block of `handleMessage` (mqttService.js 131-137). `parse` stands for
`JSON.parse(message.toString())`, `none` meaning that it throws a `SyntaxError`. -/
def handleMessageTry (parse : String → Option Value) (handlers : Handlers)
    (subscribers : Registry) (topic : Topic) (message : String) : Loop :=
  match parse message with
  | none => ⟨subscribers, [], some .syntaxError⟩
  | some data =>
    if subscribers.has topic then
      match subscribers.get topic with
      | some callbacks => forEachFrom handlers topic data callbacks.length 0 subscribers []
      | none => ⟨subscribers, [], none⟩
    else ⟨subscribers, [], none⟩

/-- The `catch` of `handleMessage` (mqttService.js 138-140): whatever the `try` block threw
is logged with `console.error` and not rethrown. The result keeps the caught exception in
`caught`; `thrown` is what leaves `handleMessage`. -/
structure Dispatch where
  subscribers : Registry
  invoked : List (Callback × Value)
  caught : Option Exn
  thrown : Option Exn

/-- `MQTTService.handleMessage(topic, message)` (mqttService.js 129-141); the only field of
the service it touches is `this.subscribers`. -/
def handleMessage (parse : String → Option Value) (handlers : Handlers)
    (subscribers : Registry) (topic : Topic) (message : String) : Dispatch :=
  let r := handleMessageTry parse handlers subscribers topic message
  match r.thrown with
  | none => ⟨r.subscribers, r.invoked, none, none⟩
  | some e => ⟨r.subscribers, r.invoked, some e, none⟩

/-! ## Transport handles and the session -/

/-- A client object returned by `mqtt.connect(url, options)`, with what the service did to it.
`owner` is the `connect()` invocation whose closure (`urls`, `currentUrlIndex`, `resolve`,
`reject`) the listeners attached to this handle capture. -/
structure Handle where
  url : String
  protocol : String
  owner : Nat
  connected : Bool
  ended : Bool
  subscriptions : List Topic
  published : List (Topic × Option String)
  deriving DecidableEq, Repr

inductive PromiseState where
  | pending
  | resolved
  | rejected (reason : Exn)
  deriving DecidableEq, Repr

/-- The closure of one `connect()` invocation: its `currentUrlIndex` and its promise. -/
structure ConnectCall where
  currentUrlIndex : Nat
  promise : PromiseState
  deriving DecidableEq, Repr

/-- The fields of the `MQTTService` object (`client` is an index into the handles). -/
structure MQTTService where
  client : Option Nat
  isConnected : Bool
  subscribers : Registry
  brokerHost : String
  brokerPort : String
  deriving DecidableEq, Repr

/-- The service together with its environment: every handle `mqtt.connect` has returned so far,
every `connect()` closure, the pending `setTimeout(tryConnect, 1000)` timers (by `connect()`
invocation) and the exceptions that escaped a listener or timer callback. -/
structure World where
  service : MQTTService
  handles : List Handle
  calls : List ConnectCall
  timers : List Nat
  uncaught : List Exn
  deriving DecidableEq, Repr

/-- The value of `setting || fallback` for an environment variable: the fallback when the
variable is unset or empty. -/
def orElse (setting : Option String) (fallback : String) : String :=
  match setting with
  | some v => if v = "" then fallback else v
  | none => fallback

/-- The constructor (mqttService.js 4-10); the arguments are the two environment variables. -/
def MQTTService.new (envBroker envPort : Option String) : MQTTService :=
  { client := none
    isConnected := false
    subscribers := []
    brokerHost := orElse envBroker "localhost"
    brokerPort := orElse envPort "5000" }

/-- A freshly loaded page: the singleton and nothing else. -/
def World.init (envBroker envPort : Option String) : World :=
  { service := MQTTService.new envBroker envPort
    handles := [], calls := [], timers := [], uncaught := [] }

/-- Replace element `i` of a list by `f` of it (no change when `i` is out of range). -/
def modifyAt {α : Type} (f : α → α) : Nat → List α → List α
  | _, [] => []
  | 0, x :: xs => f x :: xs
  | i + 1, x :: xs => x :: modifyAt f i xs

/-- The candidate list of `connect` (mqttService.js 15-19). -/
def urls (s : MQTTService) : List String :=
  [ "ws://" ++ s.brokerHost ++ ":" ++ s.brokerPort ++ "/mqtt",
    "ws://" ++ s.brokerHost ++ ":" ++ s.brokerPort,
    "mqtt://" ++ s.brokerHost ++ ":" ++ s.brokerPort ]

/-- The option `protocol: url.startsWith('ws') ? 'ws' : 'mqtt'`. -/
def protocolOf (url : String) : String :=
  if "ws".toList.isPrefixOf url.toList then "ws" else "mqtt"

/-- `tryConnect` of the `connect()` invocation `call` (mqttService.js 22-81): read
`urls[currentUrlIndex]`, open a handle for it and store it in `this.client`. Nothing is done
to the handle `this.client` held before. When the index is past the list, `url` is
`undefined` and `url.startsWith` throws before `mqtt.connect` is reached. Of the options only
`protocol` depends on the attempt; the others are constants, and the random `clientId` plays
no part in what the service does. -/
def tryConnect (w : World) (call : Nat) : World :=
  match w.calls.get? call with
  | none => w
  | some c =>
    match (urls w.service).get? c.currentUrlIndex with
    | none => { w with uncaught := w.uncaught ++ [.typeError] }
    | some url =>
      let handle : Handle :=
        { url := url, protocol := protocolOf url, owner := call, connected := false,
          ended := false, subscriptions := [], published := [] }
      { w with
        handles := w.handles ++ [handle]
        service := { w.service with client := some w.handles.length } }

/-- `MQTTService.connect()` (mqttService.js 12-85): a new promise whose executor sets
`currentUrlIndex = 0` and runs `tryConnect` once. Returns the new state and the promise
(the index of the invocation). -/
def connect (w : World) : World × Nat :=
  let call := w.calls.length
  let w := { w with calls := w.calls ++ [{ currentUrlIndex := 0, promise := .pending }] }
  (tryConnect w call, call)

/-- `MQTTService.disconnect()` (mqttService.js 87-93). -/
def disconnect (w : World) : World :=
  match w.service.client with
  | some i =>
    { w with
      handles := modifyAt (fun h => { h with ended := true }) i w.handles
      service := { w.service with client := none, isConnected := false } }
  | none => w

/-- `MQTTService.isConnectionReady()` (mqttService.js 95-97), as the truthiness of its result. -/
def isConnectionReady (w : World) : Bool :=
  w.service.isConnected &&
    (match w.service.client with
     | some i => (match w.handles.get? i with
                  | some h => h.connected
                  | none => false)
     | none => false)

/-- `MQTTService.forceReconnect()` (mqttService.js 99-103). -/
def forceReconnect (w : World) : World × Nat :=
  connect (disconnect w)

/-- The topics of `subscribeToResults` (mqttService.js 107-116). -/
def resultTopics : List Topic :=
  [ "coreflux/factory01/traceability/movement/list/result",
    "coreflux/factory01/traceability/part/history/result",
    "coreflux/factory01/traceability/station/activity/result",
    "coreflux/factory01/traceability/system/stats/result",
    "coreflux/factory01/traceability/part/list/result",
    "coreflux/factory01/traceability/station/list/result",
    "coreflux/factory01/traceability/station/info",
    "coreflux/factory01/traceability/operator/list/result" ]

/-- `MQTTService.subscribeToResults()` (mqttService.js 105-127): one `this.client.subscribe`
per result topic; with `this.client` null the first of them throws a `TypeError`. -/
def subscribeToResults (w : World) : Except Exn World :=
  match w.service.client with
  | none => .error .typeError
  | some i =>
    .ok { w with
          handles := modifyAt
            (fun h => { h with subscriptions := h.subscriptions ++ resultTopics }) i w.handles }

/-- Settle the promise of invocation `call` (a settled promise ignores later calls). -/
def settle (w : World) (call : Nat) (p : PromiseState) : World :=
  { w with
    calls := modifyAt
      (fun c => match c.promise with
        | .pending => { c with promise := p }
        | _ => c) call w.calls }

/-- The `'connect'` listener of handle `h` (mqttService.js 36-41). -/
def onConnect (w : World) (h : Nat) : World :=
  match w.handles.get? h with
  | none => w
  | some hd =>
    let w := { w with service := { w.service with isConnected := true } }
    match subscribeToResults w with
    | .error e => { w with uncaught := w.uncaught ++ [e] }
    | .ok w => settle w hd.owner .resolved

/-- The `'error'` listener of handle `h` (mqttService.js 43-60); `message` is `error.message`. -/
def onError (w : World) (h : Nat) (message : String) : World :=
  match w.handles.get? h with
  | none => w
  | some hd =>
    let w := { w with
               calls := modifyAt
                 (fun c => { c with currentUrlIndex := c.currentUrlIndex + 1 }) hd.owner w.calls }
    match w.calls.get? hd.owner with
    | none => w
    | some c =>
      if c.currentUrlIndex < (urls w.service).length then
        { w with timers := w.timers ++ [hd.owner] }
      else
        let w := { w with service := { w.service with isConnected := false } }
        settle w hd.owner
          (.rejected (.error ("Failed to connect with all methods. Last error: " ++ message)))

/-- The `'close'`, `'reconnect'` and `'offline'` listeners (mqttService.js 62-75). -/
def onDemote (w : World) : World :=
  { w with service := { w.service with isConnected := false } }

/-- A pending `setTimeout(tryConnect, 1000)` of invocation `call` fires. -/
def fireTimer (w : World) (call : Nat) : World :=
  if call ∈ w.timers then tryConnect { w with timers := w.timers.erase call } call
  else w

/-- The `'message'` listener (mqttService.js 77-80): `this.handleMessage(topic, message)`. -/
def onMessage (parse : String → Option Value) (handlers : Handlers)
    (w : World) (topic : Topic) (message : String) : World :=
  let d := handleMessage parse handlers w.service.subscribers topic message
  let w := { w with service := { w.service with subscribers := d.subscribers } }
  match d.thrown with
  | none => w
  | some e => { w with uncaught := w.uncaught ++ [e] }

/-! ## Command facade -/

/-- Escape of one character inside a JSON string literal, as `JSON.stringify` writes it. -/
def escapeChar (c : Char) : List Char :=
  if c = '"' then ['\\', '"']
  else if c = '\\' then ['\\', '\\']
  else if c = '\n' then ['\\', 'n']
  else if c = '\r' then ['\\', 'r']
  else if c = '\t' then ['\\', 't']
  else if c.toNat = 8 then ['\\', 'b']
  else if c.toNat = 12 then ['\\', 'f']
  else if c.toNat < 32 then
    ['\\', 'u', '0', '0', Nat.digitChar (c.toNat / 16), Nat.digitChar (c.toNat % 16)]
  else [c]

/-- A JSON string literal. -/
def quote (s : String) : String :=
  String.mk ('"' :: (s.toList.flatMap escapeChar ++ ['"']))

mutual
/-- `JSON.stringify(v)`; `none` is the result `undefined`. -/
def stringify : Value → Option String
  | .undefined => none
  | .null => some "null"
  | .bool true => some "true"
  | .bool false => some "false"
  | .num n => some (toString n)
  | .str s => some (quote s)
  | .arr items => some ("[" ++ ",".intercalate (stringifyItems items) ++ "]")
  | .obj fields => some ("\x7b" ++ ",".intercalate (stringifyFields fields) ++ "\x7d")
/-- Array elements: `undefined` is written `null`. -/
def stringifyItems : List Value → List String
  | [] => []
  | v :: rest => (stringify v).getD "null" :: stringifyItems rest
/-- Object members: a member whose value is `undefined` is left out. -/
def stringifyFields : List (String × Value) → List String
  | [] => []
  | (k, v) :: rest =>
    match stringify v with
    | none => stringifyFields rest
    | some text => (quote k ++ ":" ++ text) :: stringifyFields rest
end

/-- The methods of the command facade with their arguments (mqttService.js 160-439). -/
inductive Command where
  | createPart (partData : Value)
  | listParts
  | updatePartStatus (partId status : Value)
  | deletePart (partId : Value)
  | recordPartMovement (movementData : Value)
  | getPartHistory (partId : Value)
  | createStation (stationData : Value)
  | createOperator (operatorData : Value)
  | getStationActivity (stationId timePeriod : Value)
  | getSystemStats
  | listStations
  | getStationInfo (stationId : Value)
  | verifyPartAtStation (partId stationId : Value)
  | getPartsAtStation (stationId : Value)
  | listOperators
  | listMovements

/-- The request topic of each method. -/
def Command.topic : Command → Topic
  | .createPart _ => "coreflux/factory01/traceability/part/create"
  | .listParts => "coreflux/factory01/traceability/part/list"
  | .updatePartStatus _ _ => "coreflux/factory01/traceability/part/updatestatus"
  | .deletePart _ => "coreflux/factory01/traceability/part/delete"
  | .recordPartMovement _ => "coreflux/factory01/traceability/movement/record"
  | .getPartHistory _ => "coreflux/factory01/traceability/part/history"
  | .createStation _ => "coreflux/factory01/traceability/station/create"
  | .createOperator _ => "coreflux/factory01/traceability/operator/create"
  | .getStationActivity _ _ => "coreflux/factory01/traceability/station/activity"
  | .getSystemStats => "coreflux/factory01/traceability/system/stats"
  | .listStations => "coreflux/factory01/traceability/station/list"
  | .getStationInfo _ => "coreflux/factory01/traceability/station/get"
  | .verifyPartAtStation _ _ => "coreflux/factory01/traceability/verification/check"
  | .getPartsAtStation _ => "coreflux/factory01/traceability/station/parts"
  | .listOperators => "coreflux/factory01/traceability/operator/list"
  | .listMovements => "coreflux/factory01/traceability/movement/list"

/-- The object each method hands to `JSON.stringify`. The default parameter
`timePeriod = '24 hours'` of `getStationActivity` applies when the argument is `undefined`. -/
def Command.body : Command → Value
  | .createPart partData => partData
  | .listParts => .obj []
  | .updatePartStatus partId status => .obj [("part_id", partId), ("status", status)]
  | .deletePart partId => .obj [("part_id", partId)]
  | .recordPartMovement movementData => movementData
  | .getPartHistory partId => .obj [("part_id", partId)]
  | .createStation stationData => stationData
  | .createOperator operatorData => operatorData
  | .getStationActivity stationId timePeriod =>
    .obj [("station_id", stationId),
          ("time_period", match timePeriod with
                          | .undefined => .str "24 hours"
                          | t => t)]
  | .getSystemStats => .obj []
  | .listStations => .obj []
  | .getStationInfo stationId => .obj [("station_id", stationId)]
  | .verifyPartAtStation partId stationId =>
    .obj [("part_id", partId), ("station_id", stationId)]
  | .getPartsAtStation stationId => .obj [("station_id", stationId)]
  | .listOperators => .obj []
  | .listMovements => .obj []

/-- A facade method call. Every method has the same shape: throw
`new Error('MQTT not connected')` when `this.isConnected` is false, otherwise
`this.client.publish(topic, JSON.stringify(...), cb)`, which is a `TypeError` when
`this.client` is null. -/
def Command.run (c : Command) (w : World) : Except Exn World :=
  if !w.service.isConnected then .error (.error "MQTT not connected")
  else
    match w.service.client with
    | none => .error .typeError
    | some i =>
      .ok { w with
            handles := modifyAt
              (fun h => { h with published := h.published ++ [(c.topic, stringify c.body)] })
              i w.handles }

/-- Every `publish` performed so far, over all handles. -/
def World.publishes (w : World) : List (Topic × Option String) :=
  w.handles.flatMap (fun h => h.published)

/-! ## Runs of the session -/

/-- What a handle can emit. The library keeps the handle's own `connected` flag: it is true
from `'connect'` until the connection closes. -/
inductive TransportEvent where
  | connect
  | error (message : String)
  | close
  | reconnect
  | offline
  | message (topic : Topic) (payload : String)

/-- One turn of the event loop as far as the service is concerned. -/
inductive Step where
  | connect
  | disconnect
  | forceReconnect
  | timer (call : Nat)
  | emit (handle : Nat) (event : TransportEvent)
  | command (c : Command)

/-- The library's part of an event: the `connected` flag of the emitting handle. -/
def setConnected (w : World) (h : Nat) (b : Bool) : World :=
  { w with handles := modifyAt (fun hd => { hd with connected := b }) h w.handles }

/-- Deliver an event of handle `h` to the listeners `tryConnect` attached to it. -/
def deliver (parse : String → Option Value) (handlers : Handlers) (w : World) (h : Nat) :
    TransportEvent → World
  | .connect => onConnect (setConnected w h true) h
  | .error message => onError w h message
  | .close => if h < w.handles.length then onDemote (setConnected w h false) else w
  | .reconnect => if h < w.handles.length then onDemote w else w
  | .offline => if h < w.handles.length then onDemote w else w
  | .message topic payload =>
    if h < w.handles.length then onMessage parse handlers w topic payload else w

/-- One step of the session; a facade method that throws leaves the state as it is. -/
def step (parse : String → Option Value) (handlers : Handlers) (w : World) : Step → World
  | .connect => (connect w).1
  | .disconnect => disconnect w
  | .forceReconnect => (forceReconnect w).1
  | .timer call => fireTimer w call
  | .emit h event => deliver parse handlers w h event
  | .command c =>
    match c.run w with
    | .ok w => w
    | .error _ => w

/-- A run: the steps in order. -/
def run (parse : String → Option Value) (handlers : Handlers) (w : World) (steps : List Step) :
    World :=
  steps.foldl (step parse handlers) w

/-- Number of live handles: opened by `mqtt.connect` and not ended. -/
def World.live (w : World) : Nat :=
  (w.handles.filter (fun h => !h.ended)).length

/-! ## A JSON decoder

`JSON.parse` belongs to the language, not to the repository: `handleMessage` takes it as the
parameter `parse` and every general statement below holds for any decoder. `parseJson` is a
concrete decoder used to evaluate the service on concrete payloads. It follows the JSON grammar;
`Value.num` holds integers, so it decodes integer literals only and gives `none` on a number
with a fraction or an exponent. -/

/-- Skip JSON white space. -/
def skipWs : List Char → List Char
  | [] => []
  | c :: cs => if c = ' ' ∨ c = '\n' ∨ c = '\r' ∨ c = '\t' then skipWs cs else c :: cs

/-- Value of a hexadecimal digit. -/
def hexVal (c : Char) : Option Nat :=
  if '0' ≤ c ∧ c ≤ '9' then some (c.toNat - '0'.toNat)
  else if 'a' ≤ c ∧ c ≤ 'f' then some (c.toNat - 'a'.toNat + 10)
  else if 'A' ≤ c ∧ c ≤ 'F' then some (c.toNat - 'A'.toNat + 10)
  else none

/-- The characters of a string literal after its opening quote, up to the closing quote. -/
def parseChars : List Char → List Char → Option (String × List Char)
  | [], _ => none
  | '"' :: rest, acc => some (String.mk acc.reverse, rest)
  | '\\' :: '"' :: rest, acc => parseChars rest ('"' :: acc)
  | '\\' :: '\\' :: rest, acc => parseChars rest ('\\' :: acc)
  | '\\' :: '/' :: rest, acc => parseChars rest ('/' :: acc)
  | '\\' :: 'b' :: rest, acc => parseChars rest (Char.ofNat 8 :: acc)
  | '\\' :: 'f' :: rest, acc => parseChars rest (Char.ofNat 12 :: acc)
  | '\\' :: 'n' :: rest, acc => parseChars rest ('\n' :: acc)
  | '\\' :: 'r' :: rest, acc => parseChars rest ('\r' :: acc)
  | '\\' :: 't' :: rest, acc => parseChars rest ('\t' :: acc)
  | '\\' :: 'u' :: a :: b :: c :: d :: rest, acc =>
    match hexVal a, hexVal b, hexVal c, hexVal d with
    | some x, some y, some z, some t =>
      parseChars rest (Char.ofNat (((x * 16 + y) * 16 + z) * 16 + t) :: acc)
    | _, _, _, _ => none
  | '\\' :: _, _ => none
  | c :: rest, acc => if c.toNat < 32 then none else parseChars rest (c :: acc)

/-- A run of decimal digits, accumulated into a number. -/
def parseDigits : List Char → Nat → Nat × List Char
  | [], acc => (acc, [])
  | c :: cs, acc =>
    if c.isDigit then parseDigits cs (acc * 10 + (c.toNat - '0'.toNat)) else (acc, c :: cs)

/-- An unsigned integer literal: `0`, or a nonzero digit followed by digits; not followed by a
fraction or an exponent. -/
def parseNat : List Char → Option (Nat × List Char)
  | [] => none
  | c :: cs =>
    if c.isDigit then
      let r := if c = '0' then (0, cs) else parseDigits cs (c.toNat - '0'.toNat)
      match r.2 with
      | [] => some r
      | d :: _ => if d.isDigit ∨ d = '.' ∨ d = 'e' ∨ d = 'E' then none else some r
    else none

mutual
/-- One JSON value, with the rest of the input. -/
def parseValue : Nat → List Char → Option (Value × List Char)
  | 0, _ => none
  | fuel + 1, cs =>
    match skipWs cs with
    | 'n' :: 'u' :: 'l' :: 'l' :: rest => some (.null, rest)
    | 't' :: 'r' :: 'u' :: 'e' :: rest => some (.bool true, rest)
    | 'f' :: 'a' :: 'l' :: 's' :: 'e' :: rest => some (.bool false, rest)
    | '"' :: rest =>
      match parseChars rest [] with
      | some (s, rest) => some (.str s, rest)
      | none => none
    | '[' :: rest =>
      match skipWs rest with
      | ']' :: rest => some (.arr [], rest)
      | rest =>
        match parseItems fuel rest with
        | some (items, rest) => some (.arr items, rest)
        | none => none
    | '\x7b' :: rest =>
      match skipWs rest with
      | '\x7d' :: rest => some (.obj [], rest)
      | rest =>
        match parseMembers fuel rest with
        | some (fields, rest) => some (.obj fields, rest)
        | none => none
    | '-' :: rest =>
      match parseNat rest with
      | some (n, rest) => some (.num (-(n : Int)), rest)
      | none => none
    | rest =>
      match parseNat rest with
      | some (n, rest) => some (.num (n : Int), rest)
      | none => none
/-- The elements of an array after `[`, up to and including `]`. -/
def parseItems : Nat → List Char → Option (List Value × List Char)
  | 0, _ => none
  | fuel + 1, cs =>
    match parseValue fuel cs with
    | none => none
    | some (v, rest) =>
      match skipWs rest with
      | ',' :: rest =>
        match parseItems fuel rest with
        | some (vs, rest) => some (v :: vs, rest)
        | none => none
      | ']' :: rest => some ([v], rest)
      | _ => none
/-- The members of an object after the opening brace, up to and including the closing one. -/
def parseMembers : Nat → List Char → Option (List (String × Value) × List Char)
  | 0, _ => none
  | fuel + 1, cs =>
    match skipWs cs with
    | '"' :: rest =>
      match parseChars rest [] with
      | none => none
      | some (key, rest) =>
        match skipWs rest with
        | ':' :: rest =>
          match parseValue fuel rest with
          | none => none
          | some (v, rest) =>
            match skipWs rest with
            | ',' :: rest =>
              match parseMembers fuel rest with
              | some (fields, rest) => some ((key, v) :: fields, rest)
              | none => none
            | '\x7d' :: rest => some ([(key, v)], rest)
            | _ => none
        | _ => none
    | _ => none
end

/-- Decode a whole text: one value, then only white space. -/
def parseJson (text : String) : Option Value :=
  match parseValue (text.length + 1) text.toList with
  | some (v, rest) => if skipWs rest = [] then some v else none
  | none => none

/-! ## Connection supervisor of the views

The four views run the same effect (PartsManager.js 71-136, StationsView.js 77-142,
OperatorsManager.js 44-107, MovementTracker.js 94-158); they differ in the topics they
subscribe to and in the loaders they call. The service is seen through what the effect uses
of it: the value `isConnectionReady()` returns at a given time and the time at which each
promise returned by `connect()` or `forceReconnect()` settles. Times are milliseconds since
the view was mounted. A state update that changes `connectionStatus` re-renders the view,
which runs the clean-up of the effect and the effect again before any other callback. -/

inductive Status where
  | connecting
  | connected
  deriving DecidableEq, Repr

inductive View where
  | partsManager
  | stationsView
  | operatorsManager
  | movementTracker
  deriving DecidableEq, Repr

/-- The data-load functions of the views. -/
inductive Loader where
  | loadParts
  | loadStations
  | loadOperators
  | loadMovements
  deriving DecidableEq, Repr

/-- The facade method a loader calls once the service is ready. -/
def Loader.command : Loader → Command
  | .loadParts => .listParts
  | .loadStations => .listStations
  | .loadOperators => .listOperators
  | .loadMovements => .listMovements

/-- What the effect does to the service; `load l` marks a call of the loader `l` and
`request l` the facade call it makes (`mqttService.listParts()` for `loadParts`, ...). -/
inductive Action where
  | subscribe (topic : Topic)
  | connect
  | forceReconnect
  | load (l : Loader)
  | request (l : Loader)
  deriving DecidableEq, Repr

/-- The `mqttService.subscribe` calls at the top of the effect. -/
def View.subscriptions : View → List Topic
  | .partsManager => ["coreflux/factory01/traceability/part/list/result"]
  | .stationsView =>
    [ "coreflux/factory01/traceability/station/activity/result",
      "coreflux/factory01/traceability/station/list/result",
      "coreflux/factory01/traceability/station/info" ]
  | .operatorsManager => ["coreflux/factory01/traceability/operator/list/result"]
  | .movementTracker =>
    [ "coreflux/factory01/traceability/movement/list/result",
      "coreflux/factory01/traceability/part/history/result",
      "coreflux/factory01/traceability/part/list/result" ]

/-- The loaders called by the "just connected" branch of `checkConnectionStatus`. -/
def View.tickLoads : View → List Loader
  | .partsManager => [.loadParts]
  | .stationsView => [.loadStations]
  | .operatorsManager => [.loadOperators]
  | .movementTracker => [.loadMovements, .loadParts]

/-- The loaders called by `initialConnect` (in both of its branches). -/
def View.initialLoads : View → List Loader
  | .partsManager => [.loadParts]
  | .stationsView => [.loadStations]
  | .operatorsManager => [.loadOperators]
  | .movementTracker => [.loadParts, .loadMovements]

/-- The service as the effect observes it. -/
structure Env where
  ready : Nat → Bool
  settles : Nat → Option (Nat × Bool)

/-- A callback waiting to run: a timer callback or a promise reaction. `captured` is the
`connectionStatus` of the render whose closure the callback belongs to. -/
inductive Task where
  | tick (captured : Status)
  | stuckCheck (captured : Status)
  | retryLoad (l : Loader)
  | initialThen
  | initialCatch
  deriving DecidableEq, Repr

structure Supervisor where
  view : View
  connectionStatus : Status
  rendered : Status
  retryCount : Nat
  now : Nat
  agenda : List (Nat × Task)
  promises : Nat
  log : List (Nat × Action)
  deriving DecidableEq, Repr

/-- Record a call on the service. -/
def Supervisor.call (s : Supervisor) (a : Action) : Supervisor :=
  { s with log := s.log ++ [(s.now, a)] }

/-- Schedule a callback. -/
def Supervisor.schedule (s : Supervisor) (due : Nat) (t : Task) : Supervisor :=
  { s with agenda := s.agenda ++ [(due, t)] }

/-- The loaders (`loadParts` PartsManager.js 138-163, `loadStations`, `loadOperators`,
`loadMovements`): when the service is not ready, retry in 2 seconds; otherwise call the
facade method. -/
def load (env : Env) (s : Supervisor) (l : Loader) : Supervisor :=
  let s := s.call (.load l)
  if !env.ready s.now then s.schedule (s.now + 2000) (.retryLoad l)
  else s.call (.request l)

/-- A call of `connect()` or `forceReconnect()` with the reactions attached to its promise. -/
def issue (env : Env) (s : Supervisor) (a : Action) (onResolve onReject : Option Task) :
    Supervisor :=
  let s := s.call a
  let k := s.promises
  let s := { s with promises := k + 1 }
  match env.settles k with
  | none => s
  | some (t, ok) =>
    match (if ok then onResolve else onReject) with
    | none => s
    | some task => s.schedule (max t s.now) task

/-- `checkConnectionStatus` (PartsManager.js 76-108). `retryCount` exists in every view and is
updated by PartsManager only. -/
def checkConnectionStatus (env : Env) (captured : Status) (s : Supervisor) : Supervisor :=
  let isReady := env.ready s.now
  let wasConnected := decide (captured = .connected)
  if isReady && !wasConnected then
    let s := { s with connectionStatus := .connected }
    let s := if s.view = .partsManager then { s with retryCount := 0 } else s
    s.view.tickLoads.foldl (load env) s
  else if !isReady && wasConnected then
    let s := { s with connectionStatus := .connecting }
    let s := if s.view = .partsManager then { s with retryCount := s.retryCount + 1 } else s
    issue env s .connect none none
  else if !isReady && decide (captured = .connecting) then
    s.schedule (s.now + 10000) (.stuckCheck captured)
  else s

/-- The body of the 10 second timeout (PartsManager.js 99-106). -/
def stuckCheck (env : Env) (captured : Status) (s : Supervisor) : Supervisor :=
  if decide (captured = .connecting) && !env.ready s.now then
    issue env s .forceReconnect none none
  else s

/-- `initialConnect` (PartsManager.js 114-129). -/
def initialConnect (env : Env) (s : Supervisor) : Supervisor :=
  if !env.ready s.now then
    let s := { s with connectionStatus := .connecting }
    issue env s .connect (some .initialThen) (some .initialCatch)
  else
    let s := { s with connectionStatus := .connected }
    s.view.initialLoads.foldl (load env) s

/-- The effect body (PartsManager.js 71-136) in a render with the current `connectionStatus`:
subscribe, start the 2 second interval, run `initialConnect`. -/
def effect (env : Env) (s : Supervisor) : Supervisor :=
  let s := { s with rendered := s.connectionStatus }
  let s := s.view.subscriptions.foldl (fun s t => s.call (.subscribe t)) s
  let s := s.schedule (s.now + 2000) (.tick s.rendered)
  initialConnect env s

/-- The clean-up of the effect: `clearInterval(connectionInterval)`. -/
def cleanup (s : Supervisor) : Supervisor :=
  { s with agenda := s.agenda.filter (fun e => match e.2 with
                                               | .tick _ => false
                                               | _ => true) }

/-- Re-render while `connectionStatus` differs from the one the live effect was created with
(the dependency list is `[connectionStatus]`). -/
def flush (env : Env) : Nat → Supervisor → Supervisor
  | 0, s => s
  | fuel + 1, s =>
    if s.connectionStatus = s.rendered then s
    else flush env fuel (effect env (cleanup s))

/-- Two effect runs always reach a render whose effect leaves `connectionStatus` alone. -/
def rerender (env : Env) (s : Supervisor) : Supervisor :=
  flush env 2 s

/-- Run one callback; an interval callback is scheduled again 2 seconds later. -/
def fire (env : Env) (s : Supervisor) (due : Nat) : Task → Supervisor
  | .tick captured => (checkConnectionStatus env captured s).schedule (due + 2000) (.tick captured)
  | .stuckCheck captured => stuckCheck env captured s
  | .retryLoad l => load env s l
  | .initialThen =>
    let s := { s with connectionStatus := .connected }
    s.view.initialLoads.foldl (load env) s
  | .initialCatch => { s with connectionStatus := .connecting }

/-- The earliest due time on the agenda. -/
def nextDue : List (Nat × Task) → Option Nat
  | [] => none
  | (t, _) :: rest =>
    match nextDue rest with
    | none => some t
    | some u => some (min t u)

/-- Take the first callback due at `t` off the agenda. -/
def popDue (t : Nat) : List (Nat × Task) → Option (Task × List (Nat × Task))
  | [] => none
  | (u, task) :: rest =>
    if u = t then some (task, rest)
    else
      match popDue t rest with
      | none => none
      | some (found, rest) => some (found, (u, task) :: rest)

/-- The mount of a view: first render with `connectionStatus = 'connecting'`, then the effect. -/
def mount (env : Env) (view : View) : Supervisor :=
  rerender env (effect env
    { view := view, connectionStatus := .connecting, rendered := .connecting, retryCount := 0,
      now := 0, agenda := [], promises := 0, log := [] })

/-- Run every callback due up to time `limit`, in order of due time (creation order among
equal due times). `now` reaches `limit` only when nothing due is left. -/
def runUntil (env : Env) (limit : Nat) : Nat → Supervisor → Supervisor
  | 0, s => s
  | fuel + 1, s =>
    match nextDue s.agenda with
    | none => { s with now := max s.now limit }
    | some t =>
      if t ≤ limit then
        match popDue t s.agenda with
        | none => s
        | some (task, rest) =>
          let s := { s with now := max s.now t, agenda := rest }
          runUntil env limit fuel (rerender env (fire env s t task))
      else { s with now := max s.now limit }

/-- How often an action was issued. -/
def Supervisor.count (s : Supervisor) (a : Action) : Nat :=
  (s.log.filter (fun e => decide (e.2 = a))).length

/-- A transport that neither completes nor errors: never ready, no promise ever settles. -/
def stuckEnv : Env :=
  { ready := fun _ => false, settles := fun _ => none }

/-- The first `connect()` succeeds after `t` milliseconds and the service stays ready. -/
def connectsAt (t : Nat) : Env :=
  { ready := fun now => decide (t ≤ now)
    settles := fun k => if k = 0 then some (t, true) else none }

/-- The service becomes ready at time `t` through a connection whose promise carries no
`then` of the view (a `forceReconnect()` of the stuck check, or the `connect()` of another
caller); the first `connect()` of the view never settles. -/
def readyFrom (t : Nat) : Env :=
  { ready := fun now => decide (t ≤ now), settles := fun _ => none }

/-! ## Sample inputs -/

/-- The result topic of the part list. -/
def partListResult : Topic := "coreflux/factory01/traceability/part/list/result"

/-- A part list with one part, as the broker sends it. -/
def onePartPayload : String := "[\x7b\"part_id\":\"P1\",\"part_name\":\"Widget\"\x7d]"

/-- The decoded `onePartPayload`. -/
def onePart : Value := .arr [.obj [("part_id", .str "P1"), ("part_name", .str "Widget")]]

/-- Callbacks that only consume the value: no registry operation, normal return. -/
def plainHandlers : Handlers := fun _ _ => ⟨[], false⟩

/-- Callbacks among which `target` is a one-shot handler: it unsubscribes itself from `topic`
when called and returns normally; the others only consume the value. -/
def oneShot (topic : Topic) (target : Callback) : Handlers :=
  fun cb _ => if cb = target then ⟨[.unsubscribe topic cb], false⟩ else ⟨[], false⟩

/-- Callbacks among which `target` throws; the others only consume the value. -/
def throwing (target : Callback) : Handlers :=
  fun cb _ => if cb = target then ⟨[], true⟩ else ⟨[], false⟩

/-- Callbacks among which `target` registers the callback `extra` on `topic` when called. -/
def registering (topic : Topic) (target extra : Callback) : Handlers :=
  fun cb _ => if cb = target then ⟨[.subscribe topic extra], false⟩ else ⟨[], false⟩

/-- A connection that is up on a handle the service no longer holds: the first attempt of
`connect()` fails and its connection closes, the fallback timer opens a second handle, and then
the first handle (which the library reconnects every `reconnectPeriod`) reconnects and reports
`'connect'`. -/
def staleConnect : World :=
  run parseJson plainHandlers (World.init none none)
    [ .connect, .emit 0 (.error "connect ECONNREFUSED"), .emit 0 .close, .timer 0,
      .emit 0 .reconnect, .emit 0 .connect ]

/-- The steps that follow `connect()` when the attempts fail with `errors`, one after the
other, and the next attempt connects. `first` is the handle of the first of these attempts. -/
def failThenConnect (call : Nat) : Nat → List String → List Step
  | first, [] => [.emit first .connect]
  | first, e :: es =>
    .emit first (.error e) :: .timer call :: failThenConnect call (first + 1) es

/-- The steps that follow `connect()` when three attempts fail with `e1`, `e2`, `e3`. -/
def failThrice (call first : Nat) (e1 e2 e3 : String) : List Step :=
  [ .emit first (.error e1), .timer call,
    .emit (first + 1) (.error e2), .timer call,
    .emit (first + 2) (.error e3) ]

/-- The `connect()` invocation `call` is at attempt `idx` (counted from 0) on handle `h`: its
promise is pending, `h` is the handle opened last, it belongs to the invocation and it is
`this.client`. -/
structure Attempting (w : World) (call idx h : Nat) : Prop where
  closure : w.calls.get? call = some ⟨idx, .pending⟩
  client : w.service.client = some h
  last : w.handles.length = h + 1
  owner : (w.handles.get? h).map (fun hd => hd.owner) = some call

/-- The session after `connect()` followed by `failThenConnect`. -/
def connectAfterFailures (parse : String → Option Value) (handlers : Handlers) (w : World)
    (errors : List String) : World :=
  run parse handlers (connect w).1 (failThenConnect (connect w).2 w.handles.length errors)

/-- The session after `connect()` followed by `failThrice`. -/
def connectAllFail (parse : String → Option Value) (handlers : Handlers) (w : World)
    (e1 e2 e3 : String) : World :=
  run parse handlers (connect w).1 (failThrice (connect w).2 w.handles.length e1 e2 e3)

/-- The promise returned by the `connect()` invocation `call`. -/
def World.promise (w : World) (call : Nat) : Option PromiseState :=
  (w.calls.get? call).map (fun c => c.promise)

/-- The agenda of a stuck view after its tick at `2000 * k` ms, from the fifth tick on: the
stuck checks armed by the last five ticks, then the next tick. -/
def stuckAgenda (k : Nat) : List (Nat × Task) :=
  [ (2000 * k + 2000, .stuckCheck .connecting),
    (2000 * k + 4000, .stuckCheck .connecting),
    (2000 * k + 6000, .stuckCheck .connecting),
    (2000 * k + 8000, .stuckCheck .connecting),
    (2000 * k + 10000, .stuckCheck .connecting),
    (2000 * k + 2000, .tick .connecting) ]

/-- A stuck view after its tick at `2000 * k` ms, with `p` promises issued and the given log. -/
def stuckState (view : View) (k p : Nat) (log : List (Nat × Action)) : Supervisor :=
  { view := view, connectionStatus := .connecting, rendered := .connecting, retryCount := 0,
    now := 2000 * k, agenda := stuckAgenda k, promises := p, log := log }

/-- One `forceReconnect()` at each of the `n` ticks that follow the tick at `2000 * k` ms. -/
def forced : Nat → Nat → List (Nat × Action)
  | _, 0 => []
  | k, n + 1 => (2000 * k + 2000, .forceReconnect) :: forced (k + 1) n

/-! ## Definitions for the registry frame, `forceReconnect` and the view topics -/

/-- The step hands a message to `handleMessage` (the only step that runs subscriber callbacks). -/
def Step.isMessage : Step → Bool
  | .emit _ (.message _ _) => true
  | _ => false

/-- The handlers currently registered on a topic: the stored list, empty without an entry. -/
def Registry.handlersOn (m : Registry) (topic : Topic) : List Callback :=
  (m.get topic).getD []

/-- `forceReconnect()` as the specification words it: `disconnect()` immediately followed by
`connect()`, as two calls of their own; the result is the state after both and the promise
the second call returns (the closure that `connect()` adds to those of the state it is called
in). -/
def disconnectThenConnect (parse : String → Option Value) (handlers : Handlers) (w : World) :
    World × Nat :=
  (run parse handlers w [.disconnect, .connect],
   (run parse handlers w [.disconnect]).calls.length)

/-- The topics Dashboard registers handlers on (Dashboard.js 53-57). -/
def dashboardSubscriptions : List Topic :=
  [ "coreflux/factory01/traceability/system/stats/result",
    "coreflux/factory01/traceability/part/history/result",
    "coreflux/factory01/traceability/station/activity/result",
    "coreflux/factory01/traceability/movement/list/result",
    "coreflux/factory01/traceability/station/list/result" ]

/-- The topic PartHistory registers its handler on (PartHistory.js 91). -/
def partHistorySubscriptions : List Topic :=
  ["coreflux/factory01/traceability/part/history/result"]

/-- Every topic on which a component registers a handler with `mqttService.subscribe`. -/
def viewTopics : List Topic :=
  dashboardSubscriptions ++ View.partsManager.subscriptions ++ View.stationsView.subscriptions ++
    View.operatorsManager.subscriptions ++ View.movementTracker.subscriptions ++
    partHistorySubscriptions

/-- A session whose handle was released while an earlier handle is still alive: the first
attempt of `connect()` fails, the fallback opens a second handle, `disconnect()` ends the second
handle, and then the first handle (never ended, reconnected by the library) reports
`'connect'`. -/
def orphanConnect : World :=
  run parseJson plainHandlers (World.init none none)
    [ .connect, .emit 0 (.error "connect ECONNREFUSED"), .emit 0 .close, .timer 0,
      .disconnect, .emit 0 .reconnect, .emit 0 .connect ]

/-- Two callers have connected (the application shell, then the dashboard), the dashboard has
been unmounted (`disconnect()`), and the connection of the first handle, which nobody ended,
has dropped and is being re-established by the library. -/
def afterDashboardUnmount : World :=
  run parseJson plainHandlers (World.init none none)
    [ .connect, .emit 0 .connect, .connect, .emit 1 .connect, .disconnect,
      .emit 0 .close, .emit 0 .reconnect ]

/-- The broker is unreachable: the first attempt fails, the fallback opens the second handle,
which fails too and schedules the third attempt; before that timer fires, the first handle
(never ended, retried by the library after `reconnectPeriod`) fails again. Then the timer
fires. -/
def staleErrorRun : World :=
  run parseJson plainHandlers (World.init (some "broker") (some "9001"))
    [ .connect, .emit 0 (.error "connect ECONNREFUSED"), .timer 0,
      .emit 1 (.error "connect ECONNREFUSED"), .emit 0 (.error "connect ECONNREFUSED"),
      .timer 0 ]

/-- The first handle reports two errors before the fallback timer fires. -/
def doubleErrorRun : World :=
  run parseJson plainHandlers (World.init (some "broker") (some "9001"))
    [ .connect, .emit 0 (.error "connect ECONNREFUSED"),
      .emit 0 (.error "WebSocket is closed before the connection is established"), .timer 0 ]

/-- The session after a `forceReconnect()` that completes: the attempts before the last fail
with `errors`, the last one connects. -/
def forceReconnectCompleted (parse : String → Option Value) (handlers : Handlers) (w : World)
    (errors : List String) : World :=
  run parse handlers (forceReconnect w).1
    (failThenConnect (forceReconnect w).2 (disconnect w).handles.length errors)

/-- A connected session with two handlers on the part-list result topic. -/
def connectedWithHandlers : World :=
  run parseJson plainHandlers
    { World.init none none with
      service := { MQTTService.new none none with subscribers := [(partListResult, [1, 2])] } }
    [.connect, .emit 0 .connect]

/-- The handle `tryConnect` opens for `url` on behalf of the `connect()` invocation `call`. -/
def Handle.fresh (url : String) (call : Nat) : Handle :=
  { url := url, protocol := protocolOf url, owner := call, connected := false,
    ended := false, subscriptions := [], published := [] }

/-! ## Definitions for the command payloads, the dashboard and registry equivalence -/

/-- The prefix of every request topic. -/
def requestPrefix : String := "coreflux/factory01/traceability/"

/-- The own property names of an object value, in order. -/
def Value.keys : Value → List String
  | .obj fields => fields.map Prod.fst
  | _ => []

/-- The `formData` state of MovementTracker (MovementTracker.js 62-69); `handleInputChange`
replaces the value of one of these six keys (MovementTracker.js 255-260, 435-523) and
`handleSubmit` hands the object to `recordPartMovement` (MovementTracker.js 267). -/
def movementFormData (partId fromStation toStation movementType operatorId notes : String) :
    Value :=
  .obj [ ("part_id", .str partId), ("from_station_id", .str fromStation),
         ("to_station_id", .str toStation), ("movement_type", .str movementType),
         ("operator_id", .str operatorId), ("notes", .str notes) ]

/-- `Array.isArray(data)`. -/
def isArray : Value → Bool
  | .arr _ => true
  | _ => false

/-- The test `typeof data === 'object'`: true of objects, arrays and `null`. -/
def typeofObject : Value → Bool
  | .obj _ => true
  | .arr _ => true
  | .null => true
  | _ => false

/-- An object with one property set, as in the spread `(...prev, key: v)`: an existing key
keeps its place, a new key goes last. -/
def setField : List (String × Value) → String → Value → List (String × Value)
  | [], key, v => [(key, v)]
  | (k, old) :: rest, key, v =>
    if k == key then (k, v) :: rest else (k, old) :: setField rest key v

/-- The state of Dashboard that its result handlers write (Dashboard.js 37-44); `lastUpdate`
is a time in milliseconds. -/
structure Dashboard where
  systemStats : Value
  lastUpdate : Option Nat
  stationActivity : List (String × Value)
  movementList : List Value

/-- The initial state: `useState(null)`, `useState(null)`, `useState(\x7b\x7d)`, `useState([])`. -/
def Dashboard.init : Dashboard :=
  { systemStats := .null, lastUpdate := none, stationActivity := [], movementList := [] }

/-- `handleSystemStats` (Dashboard.js 93-106); `now` is the value of `new Date()`. -/
def handleSystemStats (now : Nat) (d : Dashboard) (data : Value) : Dashboard :=
  if isArray data && decide (data.items.length > 0) then
    { d with systemStats := data.items.headD .undefined, lastUpdate := some now }
  else if typeofObject data then
    { d with systemStats := data, lastUpdate := some now }
  else d

/-- `handleStationActivity` (Dashboard.js 113-121): `recent: data.slice(0, 10)`. -/
def handleStationActivity (d : Dashboard) (data : Value) : Dashboard :=
  if isArray data then
    { d with stationActivity := setField d.stationActivity "recent" (.arr (data.items.take 10)) }
  else d

/-- `handleMovementList` (Dashboard.js 123-130). -/
def handleMovementList (d : Dashboard) (data : Value) : Dashboard :=
  if isArray data then { d with movementList := data.items }
  else { d with movementList := [] }

/-- The compare function `(a, b) => new Date(b.timestamp) - new Date(a.timestamp)`
(Dashboard.js 158); `date` gives the time value of `new Date(v)`, a number of milliseconds
when `v` parses to a valid date. -/
def compareByTimestamp (date : Value → Int) (a b : Value) : Int :=
  date (b.field "timestamp") - date (a.field "timestamp")

/-- The order `Array.prototype.sort` establishes with that compare function: `a` may stand
before `b` when the compare function is not positive. -/
def notOlder (date : Value → Int) (a b : Value) : Prop :=
  compareByTimestamp date a b ≤ 0

instance (date : Value → Int) : DecidableRel (notOlder date) :=
  fun a b => inferInstanceAs (Decidable (compareByTimestamp date a b ≤ 0))

/-- `recentMovements` (Dashboard.js 158): a copy of `movementList`, sorted with the compare
function, cut to its first five elements. `sort` is stable, so its result is the one of the
stable insertion sort. -/
def recentMovements (date : Value → Int) (movementList : List Value) : List Value :=
  (movementList.insertionSort (notOlder date)).take 5

/-- The movements that `recentMovements` leaves out. -/
def olderMovements (date : Value → Int) (movementList : List Value) : List Value :=
  (movementList.insertionSort (notOlder date)).drop 5

/-- A time value for timestamps given as numbers of milliseconds (`new Date(n)`). -/
def epochOf : Value → Int
  | .num n => n
  | _ => 0

/-- A movement with a numeric timestamp. -/
def movementAt (id : String) (t : Int) : Value :=
  .obj [("part_id", .str id), ("timestamp", .num t)]

/-- Two registries hold the same handler list for every topic, an absent entry counting as
the empty list. -/
def Registry.same (r1 r2 : Registry) : Prop :=
  ∀ t : Topic, r1.handlersOn t = r2.handlersOn t

/-- What can be observed while a sequence of messages is dispatched, one after the other:
for each message the calls made, in order, and the exception caught. -/
def dispatchAll (parse : String → Option Value) (handlers : Handlers) :
    Registry → List (Topic × String) → List (List (Callback × Value) × Option Exn)
  | _, [] => []
  | r, (topic, message) :: rest =>
    ((handleMessage parse handlers r topic message).invoked,
      (handleMessage parse handlers r topic message).caught) ::
      dispatchAll parse handlers (handleMessage parse handlers r topic message).subscribers rest

/-- The service is ready until time `t` and not from then on; every `connect()` is rejected
three seconds after `t`. -/
def dropsAt (t : Nat) : Env :=
  { ready := fun now => decide (now < t), settles := fun _ => some (t + 3000, false) }

/-- The first handle of a `connect()` reports three errors before the fallback timers fire. -/
def tripleErrorBeforeTimer : World :=
  run parseJson plainHandlers (World.init none none)
    [ .connect, .emit 0 (.error "connect ECONNREFUSED"),
      .emit 0 (.error "connect ECONNREFUSED"), .emit 0 (.error "connect ECONNREFUSED") ]

/-- Two callers have connected (the application shell, then the dashboard), the dashboard
has been unmounted (`disconnect()`), and the first handle, which nobody ended, has lost its
connection and connected again. -/
def connectedWithoutClient : World :=
  run parseJson plainHandlers (World.init none none)
    [ .connect, .emit 0 .connect, .connect, .emit 1 .connect, .disconnect,
      .emit 0 .close, .emit 0 .reconnect, .emit 0 .connect ]

/-- A session connected by its first attempt, with nothing sent yet. -/
def connectedSession : World :=
  run parseJson plainHandlers (World.init none none) [.connect, .emit 0 .connect]

/-- The methods that ask for a list, a history, an activity or the statistics, with sample
arguments. -/
def queries (partId stationId timePeriod : Value) : List Command :=
  [ .listParts, .listMovements, .getPartHistory partId, .listStations,
    .getStationActivity stationId timePeriod, .listOperators, .getSystemStats ]

/-- The handle of `connectedSession`: opened for `url` by the first `connect()`, connected,
subscribed to the result topics. -/
def Handle.connectedFresh (url : String) : Handle :=
  { url := url, protocol := protocolOf url, owner := 0, connected := true, ended := false,
    subscriptions := resultTopics, published := [] }

/-- Eleven station activities, numbered in the order of the array. -/
def elevenActivities : Value :=
  .arr ((List.range 11).map (fun n => .obj [("activity", .num n)]))

/-- A `stationActivity` state with a field next to `recent`. -/
def dashboardWithActivity : Dashboard :=
  { Dashboard.init with
    stationActivity := [("station", .str "ST01"), ("recent", .arr [])] }

/-- The property of an object of the dashboard state. -/
def lookupField (fields : List (String × Value)) (key : String) : Option Value :=
  fields.lookup key

/-- The numbers of the activities of an array, in order. -/
def activityNumbers (v : Value) : List Int :=
  v.items.map (fun a => epochOf (a.field "activity"))

/-- The expression of `recentMovements` evaluated in a render: the spread `[...movementList]`
makes a new array, `sort` reorders that array in place, `slice` reads it. The result is the
dashboard state after the evaluation and the value of the expression. -/
def renderRecentMovements (date : Value → Int) (d : Dashboard) : Dashboard × List Value :=
  let copy := d.movementList
  let copy := copy.insertionSort (notOlder date)
  (d, copy.take 5)

/-- Seven movements, two of them with the same timestamp. -/
def sevenMovements : List Value :=
  [ movementAt "a" 5, movementAt "b" 9, movementAt "c" 1, movementAt "d" 9, movementAt "e" 3,
    movementAt "f" 7, movementAt "g" 2 ]

/-- The part identifiers of a list of movements, as JSON texts. -/
def partIds (l : List Value) : List (Option String) :=
  l.map (fun v => stringify (v.field "part_id"))

/-- A registry in which the part-list result topic has an entry without handlers, next to a
topic with a handler. -/
def emptyEntryRegistry : Registry :=
  [(partListResult, []), ("coreflux/factory01/traceability/station/list/result", [7])]

/-- The same registry without the entry of the part-list result topic. -/
def absentEntryRegistry : Registry :=
  [("coreflux/factory01/traceability/station/list/result", [7])]

/-- A registry with two handlers on the part-list result topic. -/
def twoHandlerRegistry : Registry := [(partListResult, [1, 2])]

/-- The operators view at the moment its tick at 6000 ms runs: connected since the mount, the
connection dropped at 5000 ms. -/
def lostView : Supervisor :=
  { runUntil (dropsAt 5000) 5999 100 (mount (dropsAt 5000) .operatorsManager) with
    now := 6000, agenda := [] }

/-! ## The registry: `get` after `set`, `subscribe`, `unsubscribe` -/

theorem Registry.get_set_same (m : Registry) (t : Topic) (v : List Callback) :
    (m.set t v).get t = some v := by
  induction m with
  | nil => simp [Registry.set, Registry.get, List.lookup]
  | cons e rest ih =>
    obtain ⟨k, old⟩ := e
    by_cases h : k = t
    · simp [Registry.set, Registry.get, h, List.lookup]
    · have h2 : (t == k) = false := by simpa using fun hh => h hh.symm
      simpa [Registry.set, Registry.get, h, List.lookup, h2] using ih

theorem Registry.get_set_other (m : Registry) (t u : Topic) (v : List Callback) (hne : u ≠ t) :
    (m.set t v).get u = m.get u := by
  induction m with
  | nil =>
    have h2 : (u == t) = false := by simpa using hne
    simp [Registry.set, Registry.get, List.lookup, h2]
  | cons e rest ih =>
    obtain ⟨k, old⟩ := e
    by_cases h : k = t
    · subst h
      have h2 : (u == k) = false := by simpa using hne
      simp [Registry.set, Registry.get, List.lookup, h2]
    · by_cases h3 : u = k
      · subst h3
        simp [Registry.set, Registry.get, h, List.lookup]
      · have h4 : (u == k) = false := by simpa using h3
        simpa [Registry.set, Registry.get, h, List.lookup, h4] using ih

theorem get_subscribe_same (m : Registry) (t : Topic) (cb : Callback) :
    (subscribe m t cb).get t = some ((m.get t).getD [] ++ [cb]) := by
  unfold subscribe
  cases hget : m.get t with
  | none =>
    simp [Registry.has, hget, Registry.get_set_same]
  | some l =>
    simp [Registry.has, hget, Registry.get_set_same]

theorem get_subscribe_other (m : Registry) (t u : Topic) (cb : Callback) (hne : u ≠ t) :
    (subscribe m t cb).get u = m.get u := by
  unfold subscribe
  cases hget : m.get t with
  | none =>
    simp [Registry.has, hget, Registry.get_set_same, Registry.get_set_other _ _ _ _ hne]
  | some l =>
    simp [Registry.has, hget, Registry.get_set_other _ _ _ _ hne]

theorem get_unsubscribe_other (m : Registry) (t u : Topic) (cb : Callback) (hne : u ≠ t) :
    (unsubscribe m t cb).get u = m.get u := by
  unfold unsubscribe
  cases hget : m.get t with
  | none => simp [Registry.has, hget]
  | some l =>
    by_cases hidx : indexOf l cb > -1
    · simp [Registry.has, hget, hidx, Registry.get_set_other _ _ _ _ hne]
    · simp [Registry.has, hget, hidx]

/-! ## The dispatch loop -/

theorem applyOp_keeps (topic : Topic) (L : List Callback) (m : Registry) (op : Op)
    (hk : op.keeps topic = true) (hm : ∃ extra, m.get topic = some (L ++ extra)) :
    ∃ extra, (applyOp m op).get topic = some (L ++ extra) := by
  obtain ⟨extra, hm⟩ := hm
  cases op with
  | subscribe t cb =>
    by_cases h : topic = t
    · subst h
      exact ⟨extra ++ [cb], by simp [applyOp, get_subscribe_same, hm]⟩
    · exact ⟨extra, by simp [applyOp, get_subscribe_other _ _ _ _ h, hm]⟩
  | unsubscribe t cb =>
    have h : topic ≠ t := by
      intro h
      simp [Op.keeps, h] at hk
    exact ⟨extra, by simp [applyOp, get_unsubscribe_other _ _ _ _ h, hm]⟩

theorem applyOps_keeps (topic : Topic) (L : List Callback) (ops : List Op) :
    ∀ (m : Registry), ops.all (Op.keeps topic) = true →
      (∃ extra, m.get topic = some (L ++ extra)) →
      ∃ extra, (applyOps m ops).get topic = some (L ++ extra) := by
  induction ops with
  | nil => intro m _ hm; simpa [applyOps] using hm
  | cons op rest ih =>
    intro m hall hm
    simp only [List.all_cons, Bool.and_eq_true] at hall
    have h1 := applyOp_keeps topic L m op hall.1 hm
    simpa [applyOps] using ih (applyOp m op) hall.2 h1

/-- A stretch of `n` callbacks that return quietly: each is called once, in order, and the
handlers registered when the stretch began are still in place afterwards. -/
theorem forEachFrom_quiet (handlers : Handlers) (topic : Topic) (data : Value)
    (L : List Callback) :
    ∀ (n k rest : Nat) (m : Registry) (log : List (Callback × Value)),
      k + n ≤ L.length →
      (∃ extra, m.get topic = some (L ++ extra)) →
      (∀ cb ∈ (L.drop k).take n, returnsQuietly handlers topic data cb = true) →
      ∃ m', (∃ extra, m'.get topic = some (L ++ extra)) ∧
        forEachFrom handlers topic data (n + rest) k m log
          = forEachFrom handlers topic data rest (k + n) m'
              (log ++ ((L.drop k).take n).map (fun cb => (cb, data))) := by
  intro n
  induction n with
  | zero =>
    intro k rest m log _ hm _
    exact ⟨m, hm, by simp⟩
  | succ n ih =>
    intro k rest m log hlen hm hq
    have hk : k < L.length := by omega
    obtain ⟨extra, hget⟩ := hm
    have hdrop : L.drop k = L[k] :: L.drop (k + 1) := List.drop_eq_getElem_cons hk
    have hqk : returnsQuietly handlers topic data L[k] = true := by
      apply hq
      rw [hdrop, List.take_succ_cons]
      exact List.mem_cons_self _ _
    have hqrest : ∀ cb ∈ (L.drop (k + 1)).take n, returnsQuietly handlers topic data cb = true := by
      intro cb hcb
      apply hq
      rw [hdrop, List.take_succ_cons]
      exact List.mem_cons_of_mem _ hcb
    simp only [returnsQuietly, Bool.and_eq_true, Bool.not_eq_true'] at hqk
    have hm1 := applyOps_keeps topic L (handlers L[k] data).ops m hqk.2 ⟨extra, hget⟩
    obtain ⟨m', hm', heq⟩ := ih (k + 1) rest (applyOps m (handlers L[k] data).ops)
      (log ++ [(L[k], data)]) (by omega) hm1 hqrest
    refine ⟨m', hm', ?_⟩
    have hlook : (m.get topic).bind (fun callbacks => callbacks.get? k) = some L[k] := by
      simp [hget, List.getElem?_append_left hk]
    have hsucc : n + 1 + rest = (n + rest) + 1 := by omega
    rw [hsucc, forEachFrom, hlook]
    simp only [hqk.1]
    rw [hdrop, List.take_succ_cons, List.map_cons]
    have hidx : k + (n + 1) = k + 1 + n := by omega
    rw [hidx]
    simpa using heq

/-- Dispatch over handlers that all return quietly: every handler registered when the dispatch
begins is called once, in registration order, with the decoded value. -/
theorem handleMessage_of_quiet (parse : String → Option Value) (handlers : Handlers)
    (m : Registry) (topic : Topic) (message : String) (data : Value) (L : List Callback)
    (hparse : parse message = some data) (hget : m.get topic = some L)
    (hq : ∀ cb ∈ L, returnsQuietly handlers topic data cb = true) :
    (handleMessage parse handlers m topic message).invoked = L.map (fun cb => (cb, data)) ∧
    (handleMessage parse handlers m topic message).caught = none ∧
    (handleMessage parse handlers m topic message).thrown = none := by
  obtain ⟨m', _, heq⟩ := forEachFrom_quiet handlers topic data L L.length 0 0 m []
    (by omega) ⟨[], by simpa using hget⟩ (by simpa using hq)
  have heq2 : forEachFrom handlers topic data L.length 0 m []
      = ⟨m', L.map (fun cb => (cb, data)), none⟩ := by
    simpa [forEachFrom] using heq
  simp [handleMessage, handleMessageTry, hparse, Registry.has, hget, heq2]

/-- Dispatch when the callback after the quiet handlers `pre` throws: the loop ends there. -/
theorem handleMessage_of_throw (parse : String → Option Value) (handlers : Handlers)
    (m : Registry) (topic : Topic) (message : String) (data : Value)
    (pre post : List Callback) (h : Callback)
    (hparse : parse message = some data) (hget : m.get topic = some (pre ++ h :: post))
    (hq : ∀ cb ∈ pre, returnsQuietly handlers topic data cb = true)
    (hthrow : (handlers h data).throws = true) :
    (handleMessage parse handlers m topic message).invoked
      = (pre ++ [h]).map (fun cb => (cb, data)) ∧
    (handleMessage parse handlers m topic message).caught = some (.thrownBy h) ∧
    (handleMessage parse handlers m topic message).thrown = none := by
  have hlen : (pre ++ h :: post).length = pre.length + (post.length + 1) := by simp
  obtain ⟨m', ⟨extra, hm'⟩, heq⟩ := forEachFrom_quiet handlers topic data (pre ++ h :: post)
    pre.length 0 (post.length + 1) m [] (by simp) ⟨[], by simpa using hget⟩
    (by simpa using hq)
  have hlook : (m'.get topic).bind (fun callbacks => callbacks.get? (0 + pre.length)) = some h := by
    have : (pre ++ h :: post ++ extra)[pre.length]? = some h := by
      rw [List.append_assoc, List.getElem?_append_right (Nat.le_refl _)]
      simp
    simpa [hm'] using this
  have heq2 : forEachFrom handlers topic data (pre.length + (post.length + 1)) 0 m []
      = ⟨applyOps m' (handlers h data).ops, (pre ++ [h]).map (fun cb => (cb, data)),
          some (.thrownBy h)⟩ := by
    rw [heq, forEachFrom, hlook]
    simp [hthrow]
  simp [handleMessage, handleMessageTry, hparse, Registry.has, hget, hlen, heq2]

/-! ## Dispatch: registration order, throwing handlers, malformed payloads, live iteration -/

/-- C1 as stated fails: handler 1 and then handler 2 are registered on the part-list result
topic, the payload decodes, and both handlers return normally; handler 1 is a one-shot handler
that unsubscribes itself. The dispatch calls handler 1 only: handler 2 is never called. -/
theorem registration_order_counterexample :
    parseJson onePartPayload = some onePart ∧
    (∀ cb, ((oneShot partListResult 1) cb onePart).throws = false) ∧
    ((handleMessage parseJson (oneShot partListResult 1)
        (subscribe (subscribe [] partListResult 1) partListResult 2)
        partListResult onePartPayload).invoked.map Prod.fst) = [1] := by
  refine ⟨by rfl, ?_, by decide⟩
  intro cb
  simp only [oneShot]
  split <;> rfl

/-- C1 (amended): for every topic, every registry, handlers `h1` and then `h2` registered on
the topic via `subscribe`, and every payload that decodes, if the handlers registered on the
topic return normally and do not unsubscribe from the topic during the dispatch, then
`handleMessage` calls the handlers registered earlier, then `h1`, then `h2`, each registration
once, in registration order and with the decoded value, and does not throw. -/
theorem handleMessage_registration_order (parse : String → Option Value) (handlers : Handlers)
    (subscribers : Registry) (topic : Topic) (h1 h2 : Callback) (message : String)
    (data : Value) (hparse : parse message = some data)
    (hq : ∀ cb ∈ (subscribers.get topic).getD [] ++ [h1, h2],
      returnsQuietly handlers topic data cb = true) :
    (handleMessage parse handlers (subscribe (subscribe subscribers topic h1) topic h2)
        topic message).invoked
      = ((subscribers.get topic).getD [] ++ [h1, h2]).map (fun cb => (cb, data)) ∧
    (handleMessage parse handlers (subscribe (subscribe subscribers topic h1) topic h2)
        topic message).thrown = none := by
  have hget : (subscribe (subscribe subscribers topic h1) topic h2).get topic
      = some ((subscribers.get topic).getD [] ++ [h1, h2]) := by
    simp [get_subscribe_same]
  have h := handleMessage_of_quiet parse handlers _ topic message data _ hparse hget hq
  exact ⟨h.1, h.2.2⟩

/-- The scenario of C1: the one-part payload on the part-list result topic reaches handler 1
and then handler 2, each once, as a one-element sequence whose element has `part_id` "P1". -/
theorem handleMessage_registration_order_witness :
    parseJson onePartPayload = some onePart ∧
    (∀ cb ∈ (Registry.get [] partListResult).getD [] ++ [1, 2],
      returnsQuietly plainHandlers partListResult onePart cb = true) ∧
    onePart.items.map (fun part => part.field "part_id") = [.str "P1"] ∧
    (handleMessage parseJson plainHandlers
        (subscribe (subscribe [] partListResult 1) partListResult 2)
        partListResult onePartPayload).invoked = [(1, onePart), (2, onePart)] ∧
    (handleMessage parseJson plainHandlers
        (subscribe (subscribe [] partListResult 1) partListResult 2)
        partListResult onePartPayload).thrown = none :=
  ⟨by rfl, by intro cb _; rfl, by rfl,
    handleMessage_registration_order parseJson plainHandlers [] partListResult 1 2
      onePartPayload onePart (by rfl) (by intro cb _; rfl)⟩

/-- C3 as stated fails: handlers 1 and 2 are registered in that order and handler 1 throws;
`handleMessage` returns without throwing, but handler 2 is not called. -/
theorem throwing_handler_counterexample :
    ((handleMessage parseJson (throwing 1) [(partListResult, [1, 2])]
        partListResult onePartPayload).invoked.map Prod.fst) = [1] ∧
    (handleMessage parseJson (throwing 1) [(partListResult, [1, 2])]
        partListResult onePartPayload).thrown = none := by
  decide

/-- C3 (amended): when the handlers before `h` return normally (without unsubscribing from the
topic) and `h` throws, `handleMessage` has called the handlers up to and including `h`, in
order and with the decoded value, calls none of the handlers registered after `h`, catches
what `h` threw and returns without throwing. -/
theorem handleMessage_stops_at_throw (parse : String → Option Value) (handlers : Handlers)
    (subscribers : Registry) (topic : Topic) (message : String) (data : Value)
    (pre post : List Callback) (h : Callback)
    (hparse : parse message = some data)
    (hget : subscribers.get topic = some (pre ++ h :: post))
    (hq : ∀ cb ∈ pre, returnsQuietly handlers topic data cb = true)
    (hthrow : (handlers h data).throws = true) :
    (handleMessage parse handlers subscribers topic message).invoked
      = (pre ++ [h]).map (fun cb => (cb, data)) ∧
    (handleMessage parse handlers subscribers topic message).caught = some (.thrownBy h) ∧
    (handleMessage parse handlers subscribers topic message).thrown = none :=
  handleMessage_of_throw parse handlers subscribers topic message data pre post h
    hparse hget hq hthrow

/-- Handlers 1, 2, 3 with 2 throwing: 1 and 2 are called, 3 is not, nothing is thrown. -/
theorem handleMessage_stops_at_throw_witness :
    parseJson onePartPayload = some onePart ∧
    Registry.get [(partListResult, [1, 2, 3])] partListResult = some ([1] ++ 2 :: [3]) ∧
    (∀ cb ∈ [1], returnsQuietly (throwing 2) partListResult onePart cb = true) ∧
    ((throwing 2) 2 onePart).throws = true ∧
    ((handleMessage parseJson (throwing 2) [(partListResult, [1, 2, 3])]
        partListResult onePartPayload).invoked = ([1] ++ [2]).map (fun cb => (cb, onePart)) ∧
     (handleMessage parseJson (throwing 2) [(partListResult, [1, 2, 3])]
        partListResult onePartPayload).caught = some (.thrownBy 2) ∧
     (handleMessage parseJson (throwing 2) [(partListResult, [1, 2, 3])]
        partListResult onePartPayload).thrown = none) :=
  ⟨by rfl, by rfl, by decide, by rfl,
    handleMessage_stops_at_throw parseJson (throwing 2) [(partListResult, [1, 2, 3])]
      partListResult onePartPayload onePart [1] [3] 2 (by rfl) (by rfl) (by decide) (by rfl)⟩

/-- C4: a payload that does not decode calls no handler, is caught inside `handleMessage`
(nothing is thrown), and leaves the registry and the whole session state as they were, so
every later run of the session is the run it would have been without the message. -/
theorem malformed_payload_dropped (parse : String → Option Value) (handlers : Handlers)
    (w : World) (topic : Topic) (message : String) (hbad : parse message = none) :
    (handleMessage parse handlers w.service.subscribers topic message).invoked = [] ∧
    (handleMessage parse handlers w.service.subscribers topic message).thrown = none ∧
    (handleMessage parse handlers w.service.subscribers topic message).subscribers
      = w.service.subscribers ∧
    onMessage parse handlers w topic message = w ∧
    ∀ (h : Nat) (later : List Step),
      run parse handlers w (.emit h (.message topic message) :: later)
        = run parse handlers w later := by
  have hm : onMessage parse handlers w topic message = w := by
    simp [onMessage, handleMessage, handleMessageTry, hbad]
  refine ⟨by simp [handleMessage, handleMessageTry, hbad],
    by simp [handleMessage, handleMessageTry, hbad],
    by simp [handleMessage, handleMessageTry, hbad], hm, ?_⟩
  intro h later
  simp only [run, List.foldl_cons, step, deliver, hm]
  split <;> rfl

/-- A text that is not JSON arrives on the part-list result topic of a fresh session with two
handlers registered: nothing is called and the state is unchanged. -/
theorem malformed_payload_dropped_witness :
    parseJson "not json" = none ∧
    ((handleMessage parseJson plainHandlers [(partListResult, [1, 2])]
        partListResult "not json").invoked = [] ∧
     (handleMessage parseJson plainHandlers [(partListResult, [1, 2])]
        partListResult "not json").thrown = none ∧
     (handleMessage parseJson plainHandlers [(partListResult, [1, 2])]
        partListResult "not json").subscribers = [(partListResult, [1, 2])] ∧
     onMessage parseJson plainHandlers
        { World.init none none with
          service := { MQTTService.new none none with
                       subscribers := [(partListResult, [1, 2])] } }
        partListResult "not json"
       = { World.init none none with
           service := { MQTTService.new none none with
                        subscribers := [(partListResult, [1, 2])] } } ∧
     ∀ (h : Nat) (later : List Step),
       run parseJson plainHandlers
          { World.init none none with
            service := { MQTTService.new none none with
                         subscribers := [(partListResult, [1, 2])] } }
          (.emit h (.message partListResult "not json") :: later)
        = run parseJson plainHandlers
          { World.init none none with
            service := { MQTTService.new none none with
                         subscribers := [(partListResult, [1, 2])] } } later) :=
  ⟨by rfl,
    malformed_payload_dropped parseJson plainHandlers
      { World.init none none with
        service := { MQTTService.new none none with
                     subscribers := [(partListResult, [1, 2])] } }
      partListResult "not json" (by rfl)⟩

/-- C8 as stated fails: handlers 1, 2, 3 are registered when the dispatch begins and handler 2
unsubscribes itself while it runs; handler 3, registered after it, is skipped. -/
theorem snapshot_counterexample :
    ((handleMessage parseJson (oneShot partListResult 2) [(partListResult, [1, 2, 3])]
        partListResult onePartPayload).invoked.map Prod.fst) = [1, 2] ∧
    (handleMessage parseJson (oneShot partListResult 2) [(partListResult, [1, 2, 3])]
        partListResult onePartPayload).subscribers = [(partListResult, [1, 3])] := by
  decide

/-- C8 (amended): the dispatch walks the live handler list by index, up to the length the list
had when the dispatch began. If the handlers registered on the topic at that moment return
normally and do not unsubscribe from the topic while they run, `handleMessage` calls exactly
those handlers, each once and in registration order, also when they subscribe further handlers
(to this or another topic) or unsubscribe from other topics during the dispatch. -/
theorem handleMessage_without_unsubscribe (parse : String → Option Value) (handlers : Handlers)
    (subscribers : Registry) (topic : Topic) (message : String) (data : Value)
    (registered : List Callback)
    (hparse : parse message = some data)
    (hget : subscribers.get topic = some registered)
    (hq : ∀ cb ∈ registered, returnsQuietly handlers topic data cb = true) :
    (handleMessage parse handlers subscribers topic message).invoked
      = registered.map (fun cb => (cb, data)) ∧
    (handleMessage parse handlers subscribers topic message).thrown = none := by
  have h := handleMessage_of_quiet parse handlers subscribers topic message data registered
    hparse hget hq
  exact ⟨h.1, h.2.2⟩

/-- Handler 1 registers handler 3 on the topic while it runs: 1 and 2 are called, 3 is not
called in this dispatch. -/
theorem handleMessage_without_unsubscribe_witness :
    parseJson onePartPayload = some onePart ∧
    Registry.get [(partListResult, [1, 2])] partListResult = some [1, 2] ∧
    (∀ cb ∈ [1, 2],
      returnsQuietly (registering partListResult 1 3) partListResult onePart cb = true) ∧
    ((handleMessage parseJson (registering partListResult 1 3) [(partListResult, [1, 2])]
        partListResult onePartPayload).invoked = [1, 2].map (fun cb => (cb, onePart)) ∧
     (handleMessage parseJson (registering partListResult 1 3) [(partListResult, [1, 2])]
        partListResult onePartPayload).thrown = none) :=
  ⟨by rfl, by rfl, by decide,
    handleMessage_without_unsubscribe parseJson (registering partListResult 1 3)
      [(partListResult, [1, 2])] partListResult onePartPayload onePart [1, 2]
      (by rfl) (by rfl) (by decide)⟩

/-! ## The session: list updates -/

theorem length_modifyAt {α : Type} (f : α → α) (i : Nat) (l : List α) :
    (modifyAt f i l).length = l.length := by
  induction l generalizing i with
  | nil => cases i <;> rfl
  | cons x xs ih => cases i <;> simp [modifyAt, ih]

theorem get?_modifyAt_same {α : Type} (f : α → α) (i : Nat) (l : List α) :
    (modifyAt f i l).get? i = (l.get? i).map f := by
  induction l generalizing i with
  | nil => cases i <;> rfl
  | cons x xs ih =>
    cases i with
    | zero => simp [modifyAt]
    | succ i => simpa [modifyAt] using ih i

theorem get?_modifyAt_other {α : Type} (f : α → α) (i j : Nat) (l : List α) (hne : j ≠ i) :
    (modifyAt f i l).get? j = l.get? j := by
  induction l generalizing i j with
  | nil => cases i <;> rfl
  | cons x xs ih =>
    cases i with
    | zero =>
      cases j with
      | zero => exact absurd rfl hne
      | succ j => simp [modifyAt]
    | succ i =>
      cases j with
      | zero => simp [modifyAt]
      | succ j => simpa [modifyAt] using ih i j (by omega)

theorem urls_get? (s : MQTTService) (i : Nat) (hi : i < 3) :
    ∃ url, (urls s).get? i = some url := by
  interval_cases i <;> simp [urls]

/-! ## The session: one attempt after the other -/

theorem Attempting.handle {w : World} {call idx h : Nat} (hA : Attempting w call idx h) :
    ∃ hd, w.handles.get? h = some hd ∧ hd.owner = call := by
  have ho := hA.owner
  cases hget : w.handles.get? h with
  | none => rw [hget] at ho; exact absurd ho (by simp)
  | some hd =>
    rw [hget] at ho
    exact ⟨hd, rfl, by simpa using ho⟩

/-- `connect()` starts attempt 0 on a new handle and touches nothing else. -/
theorem connect_attempting (w : World) :
    Attempting (connect w).1 w.calls.length 0 w.handles.length ∧
    (connect w).2 = w.calls.length ∧
    (connect w).1.handles.length = w.handles.length + 1 ∧
    (connect w).1.timers = w.timers ∧
    (connect w).1.service.isConnected = w.service.isConnected ∧
    (connect w).1.service.subscribers = w.service.subscribers ∧
    (connect w).1.live = w.live + 1 := by
  obtain ⟨url, hurl⟩ := urls_get? w.service 0 (by decide)
  have hurl2 : (urls w.service)[0]? = some url := by simpa using hurl
  refine ⟨⟨?_, ?_, ?_, ?_⟩, rfl, ?_, ?_, ?_, ?_, ?_⟩ <;>
    simp [connect, tryConnect, hurl2, World.live, List.filter_append]

/-- A failed attempt that is not the last one, followed by its fallback timer: the invocation
is at the next attempt, on a new handle. -/
theorem retry_attempting (w : World) (call idx h : Nat) (e : String)
    (hA : Attempting w call idx h) (hidx : idx + 1 < 3) :
    Attempting (fireTimer (onError w h e) call) call (idx + 1) (h + 1) ∧
    (fireTimer (onError w h e) call).handles.length = w.handles.length + 1 ∧
    (fireTimer (onError w h e) call).timers.Perm w.timers ∧
    (fireTimer (onError w h e) call).service.subscribers = w.service.subscribers ∧
    (fireTimer (onError w h e) call).live = w.live + 1 := by
  obtain ⟨hd, hget, hown⟩ := hA.handle
  obtain ⟨url, hurl⟩ := urls_get? w.service (idx + 1) hidx
  have hcalls : (modifyAt (fun c : ConnectCall => { c with currentUrlIndex := c.currentUrlIndex + 1 })
      call w.calls).get? call = some ⟨idx + 1, .pending⟩ := by
    rw [get?_modifyAt_same, hA.closure]
    rfl
  have hlen : (urls w.service).length = 3 := rfl
  have herr : onError w h e =
      { w with
        calls := modifyAt (fun c : ConnectCall =>
          { c with currentUrlIndex := c.currentUrlIndex + 1 }) call w.calls
        timers := w.timers ++ [call] } := by
    simp only [onError, hget, hown, hcalls, hlen, hidx, if_true]
  have hfire : fireTimer (onError w h e) call =
      { w with
        calls := modifyAt (fun c : ConnectCall =>
          { c with currentUrlIndex := c.currentUrlIndex + 1 }) call w.calls
        timers := (w.timers ++ [call]).erase call
        handles := w.handles ++ [{ url := url, protocol := protocolOf url, owner := call,
                                   connected := false, ended := false, subscriptions := [],
                                   published := [] }]
        service := { w.service with client := some w.handles.length } } := by
    rw [herr]
    have hurl2 : (urls w.service)[idx + 1]? = some url := by simpa using hurl
    have hcalls2 : (modifyAt (fun c : ConnectCall =>
        { c with currentUrlIndex := c.currentUrlIndex + 1 }) call w.calls)[call]?
        = some ⟨idx + 1, .pending⟩ := by simpa using hcalls
    simp [fireTimer, tryConnect, hcalls2, hurl2]
  rw [hfire]
  refine ⟨⟨hcalls, ?_, ?_, ?_⟩, ?_, ?_, rfl, ?_⟩
  · simp [hA.last]
  · simp [hA.last]
  · simp [← hA.last]
  · simp
  · have hp : (w.timers ++ [call]).Perm (call :: w.timers) := List.perm_append_singleton call w.timers
    simpa using hp.erase call
  · simp [World.live, List.filter_append]

/-- The attempt in progress connects: the promise resolves and the session is connected. -/
theorem connect_event (w : World) (call idx h : Nat) (hA : Attempting w call idx h) :
    (onConnect (setConnected w h true) h).promise call = some .resolved ∧
    (onConnect (setConnected w h true) h).service.isConnected = true ∧
    isConnectionReady (onConnect (setConnected w h true) h) = true ∧
    (onConnect (setConnected w h true) h).service.client = some h ∧
    (onConnect (setConnected w h true) h).handles.length = w.handles.length ∧
    (onConnect (setConnected w h true) h).service.subscribers = w.service.subscribers := by
  obtain ⟨hd, hget, hown⟩ := hA.handle
  have hget2 : (modifyAt (fun hd : Handle => { hd with connected := true }) h w.handles).get? h
      = some { hd with connected := true } := by
    rw [get?_modifyAt_same, hget]
    rfl
  have hev : onConnect (setConnected w h true) h =
      { w with
        service := { w.service with isConnected := true }
        handles := modifyAt
          (fun hd : Handle => { hd with subscriptions := hd.subscriptions ++ resultTopics }) h
          (modifyAt (fun hd : Handle => { hd with connected := true }) h w.handles)
        calls := modifyAt
          (fun c : ConnectCall => match c.promise with
            | .pending => { c with promise := .resolved }
            | _ => c) call w.calls } := by
    simp only [onConnect, setConnected, hget2, subscribeToResults, hA.client, settle, hown]
  rw [hev]
  have hfinal : (modifyAt
      (fun hd : Handle => { hd with subscriptions := hd.subscriptions ++ resultTopics }) h
      (modifyAt (fun hd : Handle => { hd with connected := true }) h w.handles)).get? h
      = some { hd with connected := true, subscriptions := hd.subscriptions ++ resultTopics } := by
    rw [get?_modifyAt_same, hget2]
    rfl
  refine ⟨?_, rfl, ?_, hA.client, ?_, rfl⟩
  · simp only [World.promise, get?_modifyAt_same, hA.closure]
    rfl
  · simp only [isConnectionReady, hA.client, hfinal, Bool.and_self]
  · simp [length_modifyAt]

/-- The third attempt fails: the promise rejects with the message of this last error, the
session is disconnected, no handle is opened and no timer is scheduled. -/
theorem last_error (w : World) (call h : Nat) (e : String) (hA : Attempting w call 2 h) :
    (onError w h e).promise call
      = some (.rejected (.error ("Failed to connect with all methods. Last error: " ++ e))) ∧
    (onError w h e).service.isConnected = false ∧
    (onError w h e).handles = w.handles ∧
    (onError w h e).timers = w.timers ∧
    (onError w h e).service.subscribers = w.service.subscribers := by
  obtain ⟨hd, hget, hown⟩ := hA.handle
  have hcalls : (modifyAt (fun c : ConnectCall => { c with currentUrlIndex := c.currentUrlIndex + 1 })
      call w.calls).get? call = some ⟨3, .pending⟩ := by
    rw [get?_modifyAt_same, hA.closure]
    rfl
  have hlen : (urls w.service).length = 3 := rfl
  have herr : onError w h e =
      settle
        { w with
          service := { w.service with isConnected := false }
          calls := modifyAt
            (fun c : ConnectCall => { c with currentUrlIndex := c.currentUrlIndex + 1 })
            call w.calls }
        call (.rejected (.error ("Failed to connect with all methods. Last error: " ++ e))) := by
    simp only [onError, hget, hown, hcalls, hlen]
    simp
  rw [herr]
  refine ⟨?_, rfl, rfl, rfl, rfl⟩
  simp only [World.promise, settle, get?_modifyAt_same, hcalls]
  rfl

/-- Attempts that fail one after the other and a next one that connects, from an attempt in
progress. -/
theorem run_failThenConnect (parse : String → Option Value) (handlers : Handlers)
    (call : Nat) (errors : List String) :
    ∀ (w : World) (idx h : Nat), Attempting w call idx h → idx + errors.length < 3 →
      (run parse handlers w (failThenConnect call h errors)).promise call = some .resolved ∧
      (run parse handlers w (failThenConnect call h errors)).service.isConnected = true ∧
      isConnectionReady (run parse handlers w (failThenConnect call h errors)) = true ∧
      (run parse handlers w (failThenConnect call h errors)).handles.length
        = w.handles.length + errors.length := by
  induction errors with
  | nil =>
    intro w idx h hA _
    have hc := connect_event w call idx h hA
    simpa [run, failThenConnect, step, deliver] using ⟨hc.1, hc.2.1, hc.2.2.1, hc.2.2.2.2.1⟩
  | cons e es ih =>
    intro w idx h hA hidx
    have hr := retry_attempting w call idx h e hA (by simp at hidx; omega)
    have h2 := ih (fireTimer (onError w h e) call) (idx + 1) (h + 1) hr.1
      (by simp at hidx; omega)
    have hrun : run parse handlers w (failThenConnect call h (e :: es))
        = run parse handlers (fireTimer (onError w h e) call) (failThenConnect call (h + 1) es) := by
      simp [run, failThenConnect, step, deliver]
    rw [hrun]
    refine ⟨h2.1, h2.2.1, h2.2.2.1, ?_⟩
    rw [h2.2.2.2, hr.2.1]
    simp
    omega

/-! ## The command facade guard -/

/-- C2 as stated fails: in `staleConnect` the first handle has connected after the fallback
replaced it, so `isConnected` is true while `this.client` is the second handle, which is not
connected. `isConnectionReady()` is false, yet `listParts()` does not fail: it publishes the
request on the second handle. -/
theorem command_guard_counterexample :
    isConnectionReady staleConnect = false ∧
    staleConnect.service.isConnected = true ∧
    staleConnect.publishes = [] ∧
    (Command.listParts.run staleConnect).toOption.map World.publishes
      = some [("coreflux/factory01/traceability/part/list", some "\x7b\x7d")] := by
  decide

/-- C2 (amended): for every facade method and every session state in which `isConnected` is
false (in such a state `isConnectionReady()` is false too), the call fails synchronously with
the error 'MQTT not connected' and publishes nothing: the state is left as it was. -/
theorem command_rejected_when_not_connected (c : Command) (w : World)
    (hoff : w.service.isConnected = false) :
    c.run w = .error (.error "MQTT not connected") ∧
    isConnectionReady w = false ∧
    ∀ (parse : String → Option Value) (handlers : Handlers),
      step parse handlers w (.command c) = w := by
  have hrun : c.run w = .error (.error "MQTT not connected") := by
    simp [Command.run, hoff]
  refine ⟨hrun, by simp [isConnectionReady, hoff], ?_⟩
  intro parse handlers
  simp [step, hrun]

/-- A fresh session rejects `listParts()`. -/
theorem command_rejected_when_not_connected_witness :
    (World.init none none).service.isConnected = false ∧
    (Command.listParts.run (World.init none none) = .error (.error "MQTT not connected") ∧
     isConnectionReady (World.init none none) = false ∧
     ∀ (parse : String → Option Value) (handlers : Handlers),
       step parse handlers (World.init none none) (.command .listParts)
         = World.init none none) :=
  ⟨rfl, command_rejected_when_not_connected .listParts (World.init none none) rfl⟩

/-! ## `connect()` over the three candidate URLs -/

/-- C5: when the attempts before attempt `k` (`k` = 1, 2 or 3; `errors` holds the `k - 1`
error messages) fail with a transport error and attempt `k` connects, the promise returned by
`connect()` is resolved and the session is connected: `isConnected` is true, and so is
`isConnectionReady()`. One handle was opened per attempt. -/
theorem connect_resolves_after_failures (parse : String → Option Value) (handlers : Handlers)
    (w : World) (errors : List String) (hlen : errors.length < 3) :
    (connectAfterFailures parse handlers w errors).promise (connect w).2 = some .resolved ∧
    (connectAfterFailures parse handlers w errors).service.isConnected = true ∧
    isConnectionReady (connectAfterFailures parse handlers w errors) = true ∧
    (connectAfterFailures parse handlers w errors).handles.length
      = w.handles.length + errors.length + 1 := by
  have hc := connect_attempting w
  have hr := run_failThenConnect parse handlers (connect w).2 errors (connect w).1 0
    w.handles.length (by rw [hc.2.1]; exact hc.1) (by omega)
  refine ⟨hr.1, hr.2.1, hr.2.2.1, ?_⟩
  have h4 := hr.2.2.2
  rw [hc.2.2.1] at h4
  simp only [connectAfterFailures]
  omega

/-- Only the third URL succeeds, on a fresh session. -/
theorem connect_resolves_after_failures_witness :
    ["connect ECONNREFUSED", "connect ECONNREFUSED"].length < 3 ∧
    ((connectAfterFailures parseJson plainHandlers (World.init none none)
        ["connect ECONNREFUSED", "connect ECONNREFUSED"]).promise
        (connect (World.init none none)).2 = some .resolved ∧
     (connectAfterFailures parseJson plainHandlers (World.init none none)
        ["connect ECONNREFUSED", "connect ECONNREFUSED"]).service.isConnected = true ∧
     isConnectionReady (connectAfterFailures parseJson plainHandlers (World.init none none)
        ["connect ECONNREFUSED", "connect ECONNREFUSED"]) = true ∧
     (connectAfterFailures parseJson plainHandlers (World.init none none)
        ["connect ECONNREFUSED", "connect ECONNREFUSED"]).handles.length
       = (World.init none none).handles.length
          + ["connect ECONNREFUSED", "connect ECONNREFUSED"].length + 1) :=
  ⟨by decide,
    connect_resolves_after_failures parseJson plainHandlers (World.init none none)
      ["connect ECONNREFUSED", "connect ECONNREFUSED"] (by decide)⟩

/-- C6: when the three attempts fail with errors `e1`, `e2`, `e3`, the promise returned by
`connect()` is rejected with the error 'Failed to connect with all methods. Last error: '
followed by the message of `e3`, the session is disconnected (`isConnected` false, not ready),
exactly three handles were opened and the third failure scheduled no further attempt: the
pending timers are those that were pending before `connect()`. -/
theorem connect_rejects_when_all_fail (parse : String → Option Value) (handlers : Handlers)
    (w : World) (e1 e2 e3 : String) :
    (connectAllFail parse handlers w e1 e2 e3).promise (connect w).2
      = some (.rejected (.error ("Failed to connect with all methods. Last error: " ++ e3))) ∧
    (connectAllFail parse handlers w e1 e2 e3).service.isConnected = false ∧
    isConnectionReady (connectAllFail parse handlers w e1 e2 e3) = false ∧
    (connectAllFail parse handlers w e1 e2 e3).handles.length = w.handles.length + 3 ∧
    (connectAllFail parse handlers w e1 e2 e3).timers.Perm w.timers := by
  have hc := connect_attempting w
  have hA0 : Attempting (connect w).1 (connect w).2 0 w.handles.length := by
    rw [hc.2.1]; exact hc.1
  have h1 := retry_attempting (connect w).1 (connect w).2 0 w.handles.length e1 hA0 (by omega)
  have h2 := retry_attempting _ (connect w).2 1 (w.handles.length + 1) e2 h1.1 (by omega)
  have h3 := last_error _ (connect w).2 (w.handles.length + 2) e3 h2.1
  have hrun : connectAllFail parse handlers w e1 e2 e3
      = onError (fireTimer (onError (fireTimer (onError (connect w).1 w.handles.length e1)
          (connect w).2) (w.handles.length + 1) e2) (connect w).2)
          (w.handles.length + 2) e3 := by
    simp [connectAllFail, failThrice, run, step, deliver]
  rw [hrun]
  refine ⟨h3.1, h3.2.1, ?_, ?_, ?_⟩
  · simp [isConnectionReady, h3.2.1]
  · rw [h3.2.2.1, h2.2.1, h1.2.1, hc.2.2.1]
  · rw [h3.2.2.2.1]
    exact (h2.2.2.1.trans h1.2.2.1).trans (by rw [hc.2.2.2.1])

/-! ## Live transport handles -/

/-- C7 fails on the code: every `connect()` opens one more handle and ends none, so a
`connect()` issued while a handle is live leaves two live handles. On a fresh session, after
`connect()`, a failed first attempt and its fallback timer, two handles are open and neither
has been ended; the same holds after two `connect()` calls. `disconnect()` then ends the handle
in `this.client` only, so one handle stays live, whereas `forceReconnect()` ends the current
handle before it connects. -/
theorem connect_keeps_previous_handle_live (w : World) :
    (connect w).1.live = w.live + 1 ∧
    (run parseJson plainHandlers (World.init none none)
      [.connect, .emit 0 (.error "connect ECONNREFUSED"), .timer 0]).live = 2 ∧
    (run parseJson plainHandlers (World.init none none) [.connect, .connect]).live = 2 ∧
    (run parseJson plainHandlers (World.init none none)
      [.connect, .emit 0 (.error "connect ECONNREFUSED"), .timer 0, .disconnect]).live = 1 ∧
    (run parseJson plainHandlers (World.init none none)
      [.connect, .forceReconnect]).live = 1 :=
  ⟨(connect_attempting w).2.2.2.2.2.2, by decide, by decide, by decide, by decide⟩

/-! ## The connection supervisor -/

theorem load_frame (env : Env) (s : Supervisor) (l : Loader) :
    (load env s l).now = s.now ∧ (load env s l).connectionStatus = s.connectionStatus ∧
    (load env s l).rendered = s.rendered ∧ (load env s l).view = s.view := by
  unfold load
  dsimp only
  split <;> simp [Supervisor.call, Supervisor.schedule]

theorem loads_frame (env : Env) (ls : List Loader) :
    ∀ s : Supervisor,
      (ls.foldl (load env) s).now = s.now ∧
      (ls.foldl (load env) s).connectionStatus = s.connectionStatus ∧
      (ls.foldl (load env) s).rendered = s.rendered ∧
      (ls.foldl (load env) s).view = s.view := by
  induction ls with
  | nil => intro s; simp
  | cons l rest ih =>
    intro s
    have h1 := load_frame env s l
    have h2 := ih (load env s l)
    simp only [List.foldl_cons]
    exact ⟨h2.1.trans h1.1, h2.2.1.trans h1.2.1, h2.2.2.1.trans h1.2.2.1,
      h2.2.2.2.trans h1.2.2.2⟩

theorem issue_frame (env : Env) (s : Supervisor) (a : Action) (r1 r2 : Option Task) :
    (issue env s a r1 r2).now = s.now ∧
    (issue env s a r1 r2).connectionStatus = s.connectionStatus ∧
    (issue env s a r1 r2).rendered = s.rendered := by
  unfold issue
  dsimp only
  split
  · simp [Supervisor.call]
  · split <;> simp [Supervisor.call, Supervisor.schedule]

theorem subscriptions_frame (ts : List Topic) :
    ∀ s : Supervisor,
      (ts.foldl (fun s t => s.call (.subscribe t)) s).now = s.now ∧
      (ts.foldl (fun s t => s.call (.subscribe t)) s).connectionStatus = s.connectionStatus ∧
      (ts.foldl (fun s t => s.call (.subscribe t)) s).rendered = s.rendered ∧
      (ts.foldl (fun s t => s.call (.subscribe t)) s).view = s.view := by
  induction ts with
  | nil => intro s; simp
  | cons t rest ih =>
    intro s
    have h2 := ih (s.call (.subscribe t))
    simpa [Supervisor.call] using h2

theorem initialConnect_status (env : Env) (s : Supervisor) :
    (initialConnect env s).now = s.now ∧
    (initialConnect env s).rendered = s.rendered ∧
    (initialConnect env s).connectionStatus
      = (if env.ready s.now then Status.connected else Status.connecting) := by
  unfold initialConnect
  by_cases hr : env.ready s.now = true
  · have hl := loads_frame env s.view.initialLoads { s with connectionStatus := .connected }
    simp only [hr, Bool.not_true, Bool.false_eq_true, if_false, if_true]
    exact ⟨hl.1, hl.2.2.1, hl.2.1⟩
  · have hr2 : env.ready s.now = false := by simpa using hr
    have hi := issue_frame env { s with connectionStatus := .connecting }
      .connect (some .initialThen) (some .initialCatch)
    simp only [hr2, Bool.not_false, if_true, Bool.false_eq_true, if_false]
    exact ⟨hi.1, hi.2.2, hi.2.1⟩

/-- The effect leaves the clock alone, records the status it was rendered with, and its
`initialConnect` sets the status to what readiness says. -/
theorem effect_status (env : Env) (s : Supervisor) :
    (effect env s).now = s.now ∧
    (effect env s).rendered = s.connectionStatus ∧
    (effect env s).connectionStatus
      = (if env.ready s.now then Status.connected else Status.connecting) := by
  have hs := subscriptions_frame s.view.subscriptions { s with rendered := s.connectionStatus }
  generalize hs1 : s.view.subscriptions.foldl (fun (s : Supervisor) t => s.call (.subscribe t))
    { s with rendered := s.connectionStatus } = s1 at hs
  have heff : effect env s
      = initialConnect env (s1.schedule (s1.now + 2000) (.tick s1.rendered)) := by
    rw [← hs1]
    rfl
  have hi := initialConnect_status env (s1.schedule (s1.now + 2000) (.tick s1.rendered))
  have hnow : (s1.schedule (s1.now + 2000) (.tick s1.rendered)).now = s.now := hs.1
  rw [heff]
  refine ⟨hi.1.trans hs.1, hi.2.1.trans hs.2.2.1, ?_⟩
  rw [hi.2.2, hnow]

/-- After a re-render the live effect is the one of the current `connectionStatus`: two runs
of the effect are enough. -/
theorem rerender_stable (env : Env) (s : Supervisor) :
    (rerender env s).connectionStatus = (rerender env s).rendered := by
  unfold rerender
  by_cases h0 : s.connectionStatus = s.rendered
  · simp [flush, h0]
  · have e1 := effect_status env (cleanup s)
    by_cases h1 : (effect env (cleanup s)).connectionStatus = (effect env (cleanup s)).rendered
    · simp [flush, h0, h1]
    · have e2 := effect_status env (cleanup (effect env (cleanup s)))
      have hnow : (cleanup (effect env (cleanup s))).now = (cleanup s).now := e1.1
      have hst : (cleanup (effect env (cleanup s))).connectionStatus
          = (effect env (cleanup s)).connectionStatus := rfl
      simp only [flush, h0, h1, if_false]
      rw [e2.2.2, e2.2.1, hnow, hst, e1.2.2]

theorem runUntil_step (env : Env) (limit fuel : Nat) (s : Supervisor) (t : Nat) (task : Task)
    (rest : List (Nat × Task)) (hn : nextDue s.agenda = some t) (hle : t ≤ limit)
    (hp : popDue t s.agenda = some (task, rest)) :
    runUntil env limit (fuel + 1) s
      = runUntil env limit fuel
          (rerender env (fire env { s with now := max s.now t, agenda := rest } t task)) := by
  rw [runUntil]
  simp only [hn, hle, hp, if_true]

theorem runUntil_done (env : Env) (limit fuel : Nat) (s : Supervisor) (t : Nat)
    (hn : nextDue s.agenda = some t) (hlt : limit < t) :
    runUntil env limit (fuel + 1) s = { s with now := max s.now limit } := by
  rw [runUntil]
  have : ¬ t ≤ limit := by omega
  simp only [hn, this, if_false]

/-- One poll period of a stuck view: the stuck check armed five ticks earlier fires and forces
a reconnect, then the tick arms a new stuck check. -/
theorem stuck_period (view : View) (k p : Nat) (log : List (Nat × Action)) (limit fuel : Nat)
    (h : 2000 * k + 2000 ≤ limit) :
    runUntil stuckEnv limit (fuel + 2) (stuckState view k p log)
      = runUntil stuckEnv limit fuel
          (stuckState view (k + 1) (p + 1) (log ++ [(2000 * k + 2000, .forceReconnect)])) := by
  have hmin : nextDue (stuckAgenda k) = some (2000 * k + 2000) := by
    simp [nextDue, stuckAgenda]
  have hpop : popDue (2000 * k + 2000) (stuckAgenda k)
      = some (.stuckCheck .connecting, (stuckAgenda k).tail) := by
    simp [popDue, stuckAgenda]
  rw [runUntil_step stuckEnv limit (fuel + 1) (stuckState view k p log) _ _ _ hmin h hpop]
  have hfire : rerender stuckEnv (fire stuckEnv
      { stuckState view k p log with
        now := max (stuckState view k p log).now (2000 * k + 2000)
        agenda := (stuckAgenda k).tail } (2000 * k + 2000) (.stuckCheck .connecting))
      = { stuckState view k p log with
          now := 2000 * k + 2000
          agenda := (stuckAgenda k).tail
          promises := p + 1
          log := log ++ [(2000 * k + 2000, .forceReconnect)] } := by
    have hmax : max (2000 * k) (2000 * k + 2000) = 2000 * k + 2000 := by omega
    simp [rerender, flush, fire, stuckCheck, issue, stuckEnv, stuckState, Supervisor.call, hmax]
  rw [hfire]
  have hmin2 : nextDue (stuckAgenda k).tail = some (2000 * k + 2000) := by
    simp [nextDue, stuckAgenda]
  have hpop2 : popDue (2000 * k + 2000) (stuckAgenda k).tail
      = some (.tick .connecting,
          [ (2000 * k + 4000, .stuckCheck .connecting),
            (2000 * k + 6000, .stuckCheck .connecting),
            (2000 * k + 8000, .stuckCheck .connecting),
            (2000 * k + 10000, .stuckCheck .connecting) ]) := by
    simp [popDue, stuckAgenda]
  rw [runUntil_step stuckEnv limit fuel
    { stuckState view k p log with
      now := 2000 * k + 2000
      agenda := (stuckAgenda k).tail
      promises := p + 1
      log := log ++ [(2000 * k + 2000, .forceReconnect)] } _ _ _ hmin2 h hpop2]
  have hfire2 : rerender stuckEnv (fire stuckEnv
      { ({ stuckState view k p log with
          now := 2000 * k + 2000
          agenda := (stuckAgenda k).tail
          promises := p + 1
          log := log ++ [(2000 * k + 2000, .forceReconnect)] } : Supervisor) with
        now := max (2000 * k + 2000) (2000 * k + 2000)
        agenda := [ (2000 * k + 4000, .stuckCheck .connecting),
            (2000 * k + 6000, .stuckCheck .connecting),
            (2000 * k + 8000, .stuckCheck .connecting),
            (2000 * k + 10000, .stuckCheck .connecting) ] } (2000 * k + 2000) (.tick .connecting))
      = stuckState view (k + 1) (p + 1) (log ++ [(2000 * k + 2000, .forceReconnect)]) := by
    simp only [rerender, flush, fire, checkConnectionStatus, stuckEnv, stuckState,
      Supervisor.schedule, stuckAgenda, max_self]
    simp
    omega
  rw [← hfire2]

/-- A stuck view, `n` poll periods on: one forced reconnect per period. -/
theorem stuck_run (view : View) :
    ∀ (n k p : Nat) (log : List (Nat × Action)) (fuel : Nat),
      runUntil stuckEnv (2000 * k + 2000 * n) (2 * n + 1 + fuel) (stuckState view k p log)
        = stuckState view (k + n) (p + n) (log ++ forced k n) := by
  intro n
  induction n with
  | zero =>
    intro k p log fuel
    have hmin : nextDue (stuckState view k p log).agenda = some (2000 * k + 2000) := by
      simp [nextDue, stuckAgenda, stuckState]
    have hfuel : 2 * 0 + 1 + fuel = fuel + 1 := by omega
    rw [hfuel, runUntil_done stuckEnv _ fuel _ _ hmin (by omega)]
    simp [stuckState, forced]
  | succ n ih =>
    intro k p log fuel
    have hfuel : 2 * (n + 1) + 1 + fuel = (2 * n + 1 + fuel) + 2 := by omega
    have hlimit : 2000 * k + 2000 * (n + 1) = 2000 * (k + 1) + 2000 * n := by omega
    rw [hfuel, stuck_period view k p log _ _ (by omega), hlimit, ih]
    have h1 : k + 1 + n = k + (n + 1) := by omega
    have h2 : p + 1 + n = p + (n + 1) := by omega
    simp [forced, h1, h2]

theorem count_forced (s : Supervisor) (log : List (Nat × Action)) (k n : Nat) :
    ({ s with log := log ++ forced k n } : Supervisor).count .forceReconnect
      = ({ s with log := log } : Supervisor).count .forceReconnect + n := by
  induction n generalizing k log with
  | zero => simp [forced]
  | succ n ih =>
    have h := ih (log ++ [(2000 * k + 2000, .forceReconnect)]) (k + 1)
    simp only [forced, Supervisor.count] at h ⊢
    simp only [List.append_assoc, List.singleton_append] at h
    rw [h]
    simp [List.filter_append]
    omega

/-- Ten seconds after its mount a stuck view has only connected once, and one stuck check is
armed for each of the five ticks so far. -/
theorem stuck_after_ten_seconds (view : View) :
    runUntil stuckEnv 10000 100 (mount stuckEnv view)
      = stuckState view 5 1 (mount stuckEnv view).log ∧
    (mount stuckEnv view).count .forceReconnect = 0 := by
  cases view <;> decide

/-- C9 fails on the code: a view whose service never becomes ready stays in 'connecting'; every
2 second tick arms its own 10 second timeout and every timeout that finds the service not
ready calls `forceReconnect()`. Fourteen seconds after the mount the view has forced two
reconnects (at 12 s and at 14 s), and in general, `n` poll periods after its tenth second it
has forced `n` reconnects: one per poll tick, not one per stuck episode. -/
theorem stuck_supervisor_reconnects_per_tick (view : View) (n : Nat) :
    (runUntil stuckEnv 14000 100 (mount stuckEnv view)).now = 14000 ∧
    (runUntil stuckEnv 14000 100 (mount stuckEnv view)).connectionStatus = .connecting ∧
    (runUntil stuckEnv 14000 100 (mount stuckEnv view)).log.filter
        (fun e => decide (e.2 = .forceReconnect))
      = [(12000, .forceReconnect), (14000, .forceReconnect)] ∧
    (runUntil stuckEnv (10000 + 2000 * n) (2 * n + 1)
        (runUntil stuckEnv 10000 100 (mount stuckEnv view))).now = 10000 + 2000 * n ∧
    (runUntil stuckEnv (10000 + 2000 * n) (2 * n + 1)
        (runUntil stuckEnv 10000 100 (mount stuckEnv view))).connectionStatus = .connecting ∧
    (runUntil stuckEnv (10000 + 2000 * n) (2 * n + 1)
        (runUntil stuckEnv 10000 100 (mount stuckEnv view))).count .forceReconnect = n := by
  have h10 := stuck_after_ten_seconds view
  have hlimit : 10000 + 2000 * n = 2000 * 5 + 2000 * n := by omega
  have hrun := stuck_run view n 5 1 (mount stuckEnv view).log 0
  rw [← hlimit] at hrun
  have hcount := count_forced (stuckState view (5 + n) (1 + n) []) (mount stuckEnv view).log 5 n
  have hzero : (stuckState view (5 + n) (1 + n) (mount stuckEnv view).log).count .forceReconnect
      = 0 := h10.2
  refine ⟨?_, ?_, ?_, ?_, ?_, ?_⟩
  · cases view <;> decide
  · cases view <;> decide
  · cases view <;> decide
  · rw [h10.1, hrun]
    simp only [stuckState]
    omega
  · rw [h10.1, hrun]
    rfl
  · rw [h10.1, hrun]
    have hc : (stuckState view (5 + n) (1 + n) ((mount stuckEnv view).log ++ forced 5 n)).count
          .forceReconnect
        = (stuckState view (5 + n) (1 + n) (mount stuckEnv view).log).count .forceReconnect + n :=
      hcount
    rw [hc, hzero]
    omega

/-- C10 fails on the code: one transition from 'connecting' to 'connected' requests every
initial load twice, once from the callback that observes readiness and once more from
`initialConnect` when the change of `connectionStatus` runs the effect again. This holds when
the `connect()` of `initialConnect` resolves (here after 500 ms) and when a poll tick observes
readiness (here the service is stuck, the stuck check forces a reconnect at 12 s, the service
is ready from 12.5 s and the tick at 14 s observes it). -/
theorem load_requested_twice_per_transition (view : View) :
    (mount (connectsAt 500) view).connectionStatus = .connecting ∧
    (runUntil (connectsAt 500) 1000 100 (mount (connectsAt 500) view)).now = 1000 ∧
    (runUntil (connectsAt 500) 1000 100 (mount (connectsAt 500) view)).connectionStatus
      = .connected ∧
    (∀ l ∈ view.initialLoads,
      (runUntil (connectsAt 500) 1000 100 (mount (connectsAt 500) view)).count (.request l)
        = 2) ∧
    (runUntil (readyFrom 12500) 12000 100 (mount (readyFrom 12500) view)).connectionStatus
      = .connecting ∧
    (∀ l ∈ view.tickLoads,
      (runUntil (readyFrom 12500) 12000 100 (mount (readyFrom 12500) view)).count (.request l)
        = 0) ∧
    (runUntil (readyFrom 12500) 14000 100 (mount (readyFrom 12500) view)).now = 14000 ∧
    (runUntil (readyFrom 12500) 14000 100 (mount (readyFrom 12500) view)).connectionStatus
      = .connected ∧
    (∀ l ∈ view.tickLoads,
      (runUntil (readyFrom 12500) 14000 100 (mount (readyFrom 12500) view)).count (.request l)
        = 2) := by
  cases view <;> decide

/-! ## The registry: what `subscribe` and `unsubscribe` do to the handler lists -/

theorem indexOf_of_not_mem (l : List Callback) (h : Callback) (hn : h ∉ l) :
    indexOf l h = -1 := by
  induction l with
  | nil => rfl
  | cons c rest ih =>
    have hc : c ≠ h := fun hh => hn (by simp [hh])
    have hr : h ∉ rest := fun hh => hn (List.mem_cons_of_mem _ hh)
    simp [indexOf, hc, ih hr]

theorem indexOf_first (pre post : List Callback) (h : Callback) (hn : h ∉ pre) :
    indexOf (pre ++ h :: post) h = (pre.length : Int) := by
  induction pre with
  | nil => simp [indexOf]
  | cons c rest ih =>
    have hc : c ≠ h := fun hh => hn (by simp [hh])
    have hr : h ∉ rest := fun hh => hn (List.mem_cons_of_mem _ hh)
    have hi := ih hr
    have hpos : ((rest.length : Int) > -1) := by omega
    have hcons : (c :: rest) ++ h :: post = c :: (rest ++ h :: post) := rfl
    rw [hcons, indexOf]
    simp only [hc, if_false, hi, hpos, if_true, List.length_cons]
    push_cast
    rfl

theorem eraseIdx_first (pre post : List Callback) (h : Callback) :
    (pre ++ h :: post).eraseIdx pre.length = pre ++ post := by
  induction pre with
  | nil => rfl
  | cons c rest ih => simp [List.eraseIdx, ih]

/-- `unsubscribe` on a registered handler: the first occurrence leaves the stored list. -/
theorem get_unsubscribe_first (m : Registry) (t : Topic) (h : Callback)
    (pre post : List Callback) (hn : h ∉ pre) (hget : m.get t = some (pre ++ h :: post)) :
    (unsubscribe m t h).get t = some (pre ++ post) := by
  have hidx := indexOf_first pre post h hn
  have hpos : indexOf (pre ++ h :: post) h > -1 := by rw [hidx]; omega
  unfold unsubscribe
  simp only [Registry.has, hget, Option.isSome_some, if_true, hpos]
  rw [Registry.get_set_same, hidx]
  simp [eraseIdx_first]

/-- `unsubscribe` on a handler that is not registered on the topic returns the registry. -/
theorem unsubscribe_absent (m : Registry) (t : Topic) (h : Callback)
    (habs : ∀ l, m.get t = some l → h ∉ l) : unsubscribe m t h = m := by
  unfold unsubscribe
  cases hget : m.get t with
  | none => simp [Registry.has, hget]
  | some l =>
    have hidx := indexOf_of_not_mem l h (habs l hget)
    simp [Registry.has, hget, hidx]

/-- C12: for every registry, topic and handler, `subscribe(topic, h)` makes the handler list of
the topic its previous list (empty when the topic had no entry) with `h` appended at the end,
and leaves the entry of every other topic as it was. -/
theorem subscribe_appends (m : Registry) (topic : Topic) (h : Callback) :
    (subscribe m topic h).get topic = some (m.handlersOn topic ++ [h]) ∧
    (subscribe m topic h).handlersOn topic = m.handlersOn topic ++ [h] ∧
    ∀ u : Topic, u ≠ topic → (subscribe m topic h).get u = m.get u := by
  refine ⟨get_subscribe_same m topic h, ?_, ?_⟩
  · simp [Registry.handlersOn, get_subscribe_same]
  · intro u hu
    exact get_subscribe_other m topic u h hu

/-- C13: for every registry, topic and handler, `unsubscribe(topic, h)` removes the first
occurrence of `h` from the handler list of the topic and keeps every other handler, later
duplicates of `h` included, in order; when the topic has no entry, or `h` is not in its list,
the registry is returned unchanged; the entry of every other topic is as it was. -/
theorem unsubscribe_removes_first_occurrence (m : Registry) (topic : Topic) (h : Callback) :
    (∀ pre post : List Callback, h ∉ pre → m.get topic = some (pre ++ h :: post) →
      (unsubscribe m topic h).get topic = some (pre ++ post)) ∧
    (m.get topic = none → unsubscribe m topic h = m) ∧
    (∀ l : List Callback, m.get topic = some l → h ∉ l → unsubscribe m topic h = m) ∧
    ∀ u : Topic, u ≠ topic → (unsubscribe m topic h).get u = m.get u := by
  refine ⟨?_, ?_, ?_, ?_⟩
  · intro pre post hn hget
    exact get_unsubscribe_first m topic h pre post hn hget
  · intro hnone
    exact unsubscribe_absent m topic h (by intro l hl; rw [hnone] at hl; cases hl)
  · intro l hget hn
    exact unsubscribe_absent m topic h
      (by intro l2 hl2; rw [hget] at hl2; cases hl2; exact hn)
  · intro u hu
    exact get_unsubscribe_other m topic u h hu

/-- C14 as stated fails: handler 1 is registered twice on the topic and the list holds it
twice, but a dispatch calls it once when it throws (the loop ends at the first call) and once
when it is a one-shot handler that unsubscribes itself (the second copy moves to an index
already passed). -/
theorem duplicate_registration_counterexample :
    (subscribe (subscribe [] partListResult 1) partListResult 1).get partListResult
      = some [1, 1] ∧
    ((handleMessage parseJson (throwing 1)
        (subscribe (subscribe [] partListResult 1) partListResult 1)
        partListResult onePartPayload).invoked.map Prod.fst) = [1] ∧
    ((oneShot partListResult 1) 1 onePart).throws = false ∧
    ((handleMessage parseJson (oneShot partListResult 1)
        (subscribe (subscribe [] partListResult 1) partListResult 1)
        partListResult onePartPayload).invoked.map Prod.fst) = [1] := by
  decide

/-- C14 (amended): registration is not deduplicated. For every registry, topic and handler
`h1`, `subscribe(topic, h1)` called twice adds two occurrences of `h1` to the handler list,
and one dispatch of a decodable message then calls `h1` twice more than the occurrences the
list held before; `subscribe` of `h1` and then of another handler `h2` retains both in that
order and the dispatch calls both. The calls are as stated provided the handlers registered on
the topic return normally and do not unsubscribe from the topic during the dispatch. -/
theorem registration_not_deduplicated (parse : String → Option Value) (handlers : Handlers)
    (m : Registry) (topic : Topic) (h1 h2 : Callback) (message : String) (data : Value)
    (hparse : parse message = some data)
    (hq : ∀ cb ∈ m.handlersOn topic ++ [h1, h2],
      returnsQuietly handlers topic data cb = true) :
    (subscribe (subscribe m topic h1) topic h1).get topic
      = some (m.handlersOn topic ++ [h1, h1]) ∧
    ((handleMessage parse handlers (subscribe (subscribe m topic h1) topic h1)
        topic message).invoked.map Prod.fst).count h1 = (m.handlersOn topic).count h1 + 2 ∧
    (subscribe (subscribe m topic h1) topic h2).get topic
      = some (m.handlersOn topic ++ [h1, h2]) ∧
    (handleMessage parse handlers (subscribe (subscribe m topic h1) topic h2)
        topic message).invoked
      = (m.handlersOn topic ++ [h1, h2]).map (fun cb => (cb, data)) := by
  have hget11 : (subscribe (subscribe m topic h1) topic h1).get topic
      = some (m.handlersOn topic ++ [h1, h1]) := by
    simp [Registry.handlersOn, get_subscribe_same]
  have hget12 : (subscribe (subscribe m topic h1) topic h2).get topic
      = some (m.handlersOn topic ++ [h1, h2]) := by
    simp [Registry.handlersOn, get_subscribe_same]
  have hq11 : ∀ cb ∈ m.handlersOn topic ++ [h1, h1],
      returnsQuietly handlers topic data cb = true := by
    intro cb hcb
    apply hq
    simp only [List.mem_append, List.mem_cons, List.mem_singleton, List.not_mem_nil,
      or_false] at hcb ⊢
    rcases hcb with hcb | hcb | hcb
    · exact Or.inl hcb
    · exact Or.inr (Or.inl hcb)
    · exact Or.inr (Or.inl hcb)
  have d11 := handleMessage_of_quiet parse handlers _ topic message data _ hparse hget11 hq11
  have d12 := handleMessage_of_quiet parse handlers _ topic message data _ hparse hget12 hq
  refine ⟨hget11, ?_, hget12, d12.1⟩
  rw [d11.1, List.map_map]
  have hid : (Prod.fst ∘ fun cb : Callback => (cb, data)) = id := rfl
  rw [hid, List.map_id]
  simp [List.count_append]

/-- Handler 1 twice, then handlers 1 and 2, on the part-list result topic of a fresh registry:
two calls of handler 1, and one call of each. -/
theorem registration_not_deduplicated_witness :
    parseJson onePartPayload = some onePart ∧
    (∀ cb ∈ Registry.handlersOn [] partListResult ++ [1, 2],
      returnsQuietly plainHandlers partListResult onePart cb = true) ∧
    ((subscribe (subscribe [] partListResult 1) partListResult 1).get partListResult
      = some (Registry.handlersOn [] partListResult ++ [1, 1]) ∧
     ((handleMessage parseJson plainHandlers
        (subscribe (subscribe [] partListResult 1) partListResult 1)
        partListResult onePartPayload).invoked.map Prod.fst).count 1
       = (Registry.handlersOn [] partListResult).count 1 + 2 ∧
     (subscribe (subscribe [] partListResult 1) partListResult 2).get partListResult
       = some (Registry.handlersOn [] partListResult ++ [1, 2]) ∧
     (handleMessage parseJson plainHandlers
        (subscribe (subscribe [] partListResult 1) partListResult 2)
        partListResult onePartPayload).invoked
       = (Registry.handlersOn [] partListResult ++ [1, 2]).map (fun cb => (cb, onePart))) :=
  ⟨by rfl, by intro cb _; rfl,
    registration_not_deduplicated parseJson plainHandlers [] partListResult 1 2
      onePartPayload onePart (by rfl) (by intro cb _; rfl)⟩

/-! ## The session: what leaves the registry alone -/

theorem tryConnect_subscribers (w : World) (call : Nat) :
    (tryConnect w call).service.subscribers = w.service.subscribers := by
  unfold tryConnect
  split
  · rfl
  · split <;> rfl

theorem connect_subscribers (w : World) :
    (connect w).1.service.subscribers = w.service.subscribers := by
  simp only [connect]
  rw [tryConnect_subscribers]

theorem disconnect_subscribers (w : World) :
    (disconnect w).service.subscribers = w.service.subscribers := by
  unfold disconnect
  split <;> rfl

theorem forceReconnect_subscribers (w : World) :
    (forceReconnect w).1.service.subscribers = w.service.subscribers := by
  unfold forceReconnect
  rw [connect_subscribers, disconnect_subscribers]

theorem fireTimer_subscribers (w : World) (call : Nat) :
    (fireTimer w call).service.subscribers = w.service.subscribers := by
  unfold fireTimer
  split
  · rw [tryConnect_subscribers]
  · rfl

theorem onConnect_subscribers (w : World) (h : Nat) :
    (onConnect w h).service.subscribers = w.service.subscribers := by
  unfold onConnect
  split
  · rfl
  · simp only [subscribeToResults]
    cases w.service.client with
    | none => rfl
    | some i => rfl

theorem onError_subscribers (w : World) (h : Nat) (message : String) :
    (onError w h message).service.subscribers = w.service.subscribers := by
  unfold onError
  split
  · rfl
  · dsimp only
    split
    · rfl
    · split <;> rfl

theorem run_command_subscribers (c : Command) (w w2 : World) (hrun : c.run w = .ok w2) :
    w2.service.subscribers = w.service.subscribers := by
  unfold Command.run at hrun
  split at hrun
  · cases hrun
  · split at hrun
    · cases hrun
    · cases hrun
      rfl

/-- Every step other than the arrival of a message leaves the subscribers map as it is. -/
theorem step_subscribers (parse : String → Option Value) (handlers : Handlers) (w : World)
    (s : Step) (hs : s.isMessage = false) :
    (step parse handlers w s).service.subscribers = w.service.subscribers := by
  cases s with
  | connect => exact connect_subscribers w
  | disconnect => exact disconnect_subscribers w
  | forceReconnect => exact forceReconnect_subscribers w
  | timer call => exact fireTimer_subscribers w call
  | command c =>
    simp only [step]
    cases hrun : c.run w with
    | error e => rfl
    | ok w2 => exact run_command_subscribers c w w2 hrun
  | emit h event =>
    cases event with
    | connect => simp only [step, deliver]; rw [onConnect_subscribers]; rfl
    | error message => simp only [step, deliver]; rw [onError_subscribers]
    | close => simp only [step, deliver]; split <;> rfl
    | reconnect => simp only [step, deliver]; split <;> rfl
    | offline => simp only [step, deliver]; split <;> rfl
    | message topic payload => simp [Step.isMessage] at hs

theorem run_subscribers (parse : String → Option Value) (handlers : Handlers)
    (steps : List Step) :
    ∀ w : World, (∀ s ∈ steps, s.isMessage = false) →
      (run parse handlers w steps).service.subscribers = w.service.subscribers := by
  induction steps with
  | nil => intro w _; rfl
  | cons s rest ih =>
    intro w hall
    have h1 := step_subscribers parse handlers w s (hall s (List.mem_cons_self _ _))
    have h2 := ih (step parse handlers w s) (fun t ht => hall t (List.mem_cons_of_mem _ ht))
    simp only [run, List.foldl_cons] at h2 ⊢
    rw [h2, h1]

theorem failThenConnect_no_message (call : Nat) (errors : List String) :
    ∀ first : Nat, ∀ s ∈ failThenConnect call first errors, s.isMessage = false := by
  induction errors with
  | nil =>
    intro first s hs
    simp only [failThenConnect, List.mem_singleton] at hs
    subst hs
    rfl
  | cons e es ih =>
    intro first s hs
    simp only [failThenConnect, List.mem_cons] at hs
    rcases hs with hs | hs | hs
    · subst hs; rfl
    · subst hs; rfl
    · exact ih (first + 1) s hs

/-- C11: the subscribers map is reconnect-durable. `connect()`, `disconnect()`,
`forceReconnect()` and the listeners of the transport events `connect`, `error`, `close`,
`reconnect` and `offline` leave it unchanged, and so does every run made of steps other than
the arrival of a message. Hence after a `forceReconnect()` that completes (its promise
resolved, the session ready) the registry is the one from before the call, and a message on
any topic is dispatched exactly as it would have been before: to the handlers registered on
the topic before the call, each of which is called once, in order, when they return quietly. -/
theorem registry_reconnect_durable (parse : String → Option Value) (handlers : Handlers)
    (w : World) (steps : List Step) (hsteps : ∀ s ∈ steps, s.isMessage = false) :
    (connect w).1.service.subscribers = w.service.subscribers ∧
    (disconnect w).service.subscribers = w.service.subscribers ∧
    (forceReconnect w).1.service.subscribers = w.service.subscribers ∧
    (∀ (h : Nat) (e : String),
      (deliver parse handlers w h .connect).service.subscribers = w.service.subscribers ∧
      (deliver parse handlers w h (.error e)).service.subscribers = w.service.subscribers ∧
      (deliver parse handlers w h .close).service.subscribers = w.service.subscribers ∧
      (deliver parse handlers w h .reconnect).service.subscribers = w.service.subscribers ∧
      (deliver parse handlers w h .offline).service.subscribers = w.service.subscribers) ∧
    (run parse handlers w steps).service.subscribers = w.service.subscribers ∧
    (∀ (topic : Topic) (message : String),
      handleMessage parse handlers (run parse handlers w steps).service.subscribers
          topic message
        = handleMessage parse handlers w.service.subscribers topic message) ∧
    (∀ errors : List String, errors.length < 3 →
      (forceReconnectCompleted parse handlers w errors).promise (forceReconnect w).2
        = some .resolved ∧
      isConnectionReady (forceReconnectCompleted parse handlers w errors) = true ∧
      (forceReconnectCompleted parse handlers w errors).service.subscribers
        = w.service.subscribers ∧
      ∀ (topic : Topic) (message : String),
        handleMessage parse handlers
            (forceReconnectCompleted parse handlers w errors).service.subscribers
            topic message
          = handleMessage parse handlers w.service.subscribers topic message) ∧
    (∀ (errors : List String) (topic : Topic) (message : String) (data : Value)
        (registered : List Callback),
      parse message = some data → w.service.subscribers.get topic = some registered →
      (∀ cb ∈ registered, returnsQuietly handlers topic data cb = true) →
      (handleMessage parse handlers
          (forceReconnectCompleted parse handlers w errors).service.subscribers
          topic message).invoked = registered.map (fun cb => (cb, data))) := by
  have hrun := run_subscribers parse handlers steps w hsteps
  have hsub : ∀ errors : List String,
      (forceReconnectCompleted parse handlers w errors).service.subscribers
        = w.service.subscribers := by
    intro errors
    unfold forceReconnectCompleted
    rw [run_subscribers parse handlers _ _
      (failThenConnect_no_message _ errors _), forceReconnect_subscribers]
  refine ⟨connect_subscribers w, disconnect_subscribers w, forceReconnect_subscribers w,
    ?_, hrun, ?_, ?_, ?_⟩
  rotate_left 3
  · intro errors topic message data registered hparse hget hq
    rw [hsub errors]
    exact (handleMessage_of_quiet parse handlers _ topic message data registered
      hparse hget hq).1
  · intro h e
    exact ⟨step_subscribers parse handlers w (.emit h .connect) rfl,
      step_subscribers parse handlers w (.emit h (.error e)) rfl,
      step_subscribers parse handlers w (.emit h .close) rfl,
      step_subscribers parse handlers w (.emit h .reconnect) rfl,
      step_subscribers parse handlers w (.emit h .offline) rfl⟩
  · intro topic message
    rw [hrun]
  · intro errors hlen
    have hc := connect_attempting (disconnect w)
    have hA : Attempting (forceReconnect w).1 (forceReconnect w).2 0
        (disconnect w).handles.length := by
      unfold forceReconnect
      rw [hc.2.1]
      exact hc.1
    have hr := run_failThenConnect parse handlers (forceReconnect w).2 errors
      (forceReconnect w).1 0 (disconnect w).handles.length hA (by omega)
    have hsub : (forceReconnectCompleted parse handlers w errors).service.subscribers
        = w.service.subscribers := by
      unfold forceReconnectCompleted
      rw [run_subscribers parse handlers _ _
        (failThenConnect_no_message _ errors _), forceReconnect_subscribers]
    refine ⟨hr.1, hr.2.2.1, hsub, ?_⟩
    intro topic message
    rw [hsub]

/-- A connected session with two handlers on the part-list result topic is forced to
reconnect and the new handle connects: the session is ready again, the registry still holds
the two handlers, and the one-part payload reaches both. -/
theorem registry_reconnect_durable_witness :
    (∀ s ∈ [Step.forceReconnect, Step.emit 1 .connect], s.isMessage = false) ∧
    isConnectionReady
      (run parseJson plainHandlers connectedWithHandlers [.forceReconnect, .emit 1 .connect])
      = true ∧
    (run parseJson plainHandlers connectedWithHandlers
      [.forceReconnect, .emit 1 .connect]).service.subscribers = [(partListResult, [1, 2])] ∧
    ((handleMessage parseJson plainHandlers
        (run parseJson plainHandlers connectedWithHandlers
          [.forceReconnect, .emit 1 .connect]).service.subscribers
        partListResult onePartPayload).invoked.map Prod.fst) = [1, 2] ∧
    (run parseJson plainHandlers connectedWithHandlers
        [.forceReconnect, .emit 1 .connect]).service.subscribers
      = connectedWithHandlers.service.subscribers :=
  ⟨by decide, by decide, by decide, by decide,
    (registry_reconnect_durable parseJson plainHandlers connectedWithHandlers
      [.forceReconnect, .emit 1 .connect] (by decide)).2.2.2.2.1⟩

/-! ## `disconnect()`, `isConnectionReady()`, `forceReconnect()`, close and offline -/

/-- C15 as stated fails: in `orphanConnect` no handle is held (`this.client` is null) while
`isConnected` is true, because a handle that was never ended has reported `'connect'` after
`disconnect()`. The guard `if (this.client)` makes `disconnect()` do nothing there, so
`isConnected` is still true after it returns. -/
theorem disconnect_counterexample :
    orphanConnect.service.client = none ∧
    orphanConnect.service.isConnected = true ∧
    (disconnect orphanConnect).service.isConnected = true ∧
    disconnect orphanConnect = orphanConnect := by
  decide

/-- C15 (amended): for every session state, after `disconnect()` no handle is held
(`this.client` is null, and the handle that was held has been ended), `isConnectionReady()`
is false, and a second `disconnect()` changes nothing; `isConnected` is false afterwards
whenever a handle was held or `isConnected` was false already. When no handle is held
`disconnect()` leaves the state as it is. -/
theorem disconnect_releases (w : World) :
    (disconnect w).service.client = none ∧
    isConnectionReady (disconnect w) = false ∧
    disconnect (disconnect w) = disconnect w ∧
    (∀ i : Nat, w.service.client = some i →
      ((disconnect w).handles.get? i).map (fun hd => hd.ended)
        = (w.handles.get? i).map (fun _ => true)) ∧
    (w.service.client ≠ none ∨ w.service.isConnected = false →
      (disconnect w).service.isConnected = false) ∧
    (w.service.client = none → disconnect w = w) := by
  have hclient : (disconnect w).service.client = none := by
    unfold disconnect
    cases hc : w.service.client with
    | none => simpa using hc
    | some i => rfl
  refine ⟨hclient, ?_, ?_, ?_, ?_, ?_⟩
  · simp [isConnectionReady, hclient]
  · have : ∀ v : World, v.service.client = none → disconnect v = v := by
      intro v hv
      simp [disconnect, hv]
    exact this _ hclient
  · intro i hi
    simp only [disconnect, hi, get?_modifyAt_same, Option.map_map]
    rfl
  · intro hor
    cases hc : w.service.client with
    | none =>
      rcases hor with hne | hoff
      · exact absurd hc hne
      · simpa [disconnect, hc] using hoff
    | some i => simp [disconnect, hc]
  · intro hc
    simp [disconnect, hc]

/-- C16: `isConnectionReady()` is a function of the session state that returns a truth value
and no new state: it reads `isConnected`, `client` and the `connected` flag of the handle held
in `client`, and nothing is written or sent. Its result is true exactly when `isConnected` is
true and `client` holds a handle whose `connected` flag is true. -/
theorem isConnectionReady_iff (w : World) :
    isConnectionReady w = true ↔
      w.service.isConnected = true ∧
      ∃ (i : Nat) (hd : Handle),
        w.service.client = some i ∧ w.handles.get? i = some hd ∧ hd.connected = true := by
  unfold isConnectionReady
  constructor
  · intro h
    simp only [Bool.and_eq_true] at h
    refine ⟨h.1, ?_⟩
    have h2 := h.2
    cases hc : w.service.client with
    | none => rw [hc] at h2; exact absurd h2 (by simp)
    | some i =>
      rw [hc] at h2
      dsimp only at h2
      cases hh : w.handles.get? i with
      | none => rw [hh] at h2; exact absurd h2 (by simp)
      | some hd => rw [hh] at h2; exact ⟨i, hd, rfl, hh, h2⟩
  · rintro ⟨hcon, i, hd, hc, hh, hflag⟩
    simp only [hcon, hc, hh, hflag, Bool.and_self]

/-- C17: `forceReconnect()` is `disconnect()` immediately followed by `connect()`: the state it
produces (handles ended and opened included) is the state after the two calls made one after
the other, and the promise it returns is the one that `connect()` call returns. -/
theorem forceReconnect_is_disconnect_then_connect (parse : String → Option Value)
    (handlers : Handlers) (w : World) :
    forceReconnect w = disconnectThenConnect parse handlers w ∧
    step parse handlers w .forceReconnect = run parse handlers w [.disconnect, .connect] ∧
    (forceReconnect w).1 = (connect (disconnect w)).1 ∧
    (forceReconnect w).2 = (connect (disconnect w)).2 ∧
    (forceReconnect w).1.handles = (connect (disconnect w)).1.handles := by
  refine ⟨?_, rfl, rfl, rfl, rfl⟩
  rfl

/-- C18: while a handle exists, its `'close'` and `'offline'` listeners set `isConnected` to
false and do nothing else. After `'offline'` the state differs in `isConnected` only; after
`'close'` it differs in `isConnected` and in the `connected` flag the library keeps on the
closed handle. No handle is opened or ended, no `connect()` closure is created, no timer is
scheduled, and `client` and the subscribers map are unchanged. -/
theorem close_offline_only_demote (parse : String → Option Value) (handlers : Handlers)
    (w : World) (h : Nat) (hh : h < w.handles.length) :
    deliver parse handlers w h .offline
      = { w with service := { w.service with isConnected := false } } ∧
    deliver parse handlers w h .close
      = { w with
          service := { w.service with isConnected := false }
          handles := modifyAt (fun hd => { hd with connected := false }) h w.handles } ∧
    (deliver parse handlers w h .close).service.isConnected = false ∧
    (deliver parse handlers w h .close).handles.length = w.handles.length ∧
    (deliver parse handlers w h .close).live = w.live ∧
    (deliver parse handlers w h .close).calls = w.calls ∧
    (deliver parse handlers w h .close).timers = w.timers ∧
    (deliver parse handlers w h .close).service.client = w.service.client ∧
    (deliver parse handlers w h .close).service.subscribers = w.service.subscribers := by
  have hoff : deliver parse handlers w h .offline
      = { w with service := { w.service with isConnected := false } } := by
    simp [deliver, hh, onDemote]
  have hclose : deliver parse handlers w h .close
      = { w with
          service := { w.service with isConnected := false }
          handles := modifyAt (fun hd => { hd with connected := false }) h w.handles } := by
    simp [deliver, hh, onDemote, setConnected]
  refine ⟨hoff, hclose, ?_, ?_, ?_, ?_, ?_, ?_, ?_⟩ <;> rw [hclose]
  · simp [length_modifyAt]
  · simp only [World.live]
    have hlive : ∀ (l : List Handle) (k : Nat),
        (List.filter (fun hd : Handle => !hd.ended)
          (modifyAt (fun hd => { hd with connected := false }) k l)).length
        = (List.filter (fun hd : Handle => !hd.ended) l).length := by
      intro l
      induction l with
      | nil => intro k; cases k <;> rfl
      | cons x xs ih =>
        intro k
        cases k with
        | zero =>
          simp only [modifyAt, List.filter_cons]
          split <;> rfl
        | succ k =>
          simp only [modifyAt, List.filter_cons]
          split <;> simp [ih k]
    exact hlive w.handles h

/-- The connection of a connected session closes. -/
theorem close_offline_only_demote_witness :
    0 < connectedWithHandlers.handles.length ∧
    isConnectionReady connectedWithHandlers = true ∧
    (deliver parseJson plainHandlers connectedWithHandlers 0 .close).service.isConnected
      = false ∧
    (deliver parseJson plainHandlers connectedWithHandlers 0 .close).handles.length
      = connectedWithHandlers.handles.length :=
  ⟨by decide, by decide,
    (close_offline_only_demote parseJson plainHandlers connectedWithHandlers 0
      (by decide)).2.2.1,
    (close_offline_only_demote parseJson plainHandlers connectedWithHandlers 0
      (by decide)).2.2.2.1⟩

/-! ## The `'connect'` listener and the order of the candidate URLs -/

/-- With a handle in `this.client`, the `'connect'` listener of any existing handle issues the
eight subscriptions on the handle in `this.client`. -/
theorem onConnect_subscribes (parse : String → Option Value) (handlers : Handlers)
    (w : World) (h i : Nat) (hd hi : Handle) (hh : w.handles.get? h = some hd)
    (hc : w.service.client = some i) (hget : w.handles.get? i = some hi) :
    ((deliver parse handlers w h .connect).handles.get? i).map (fun x => x.subscriptions)
      = some (hi.subscriptions ++ resultTopics) := by
  have hget2 : (modifyAt (fun x : Handle => { x with connected := true }) h w.handles).get? h
      = some { hd with connected := true } := by
    rw [get?_modifyAt_same, hh]
    rfl
  have hsub : ((modifyAt (fun x : Handle => { x with connected := true }) h w.handles).get? i).map
      (fun x => x.subscriptions) = some hi.subscriptions := by
    by_cases hih : i = h
    · subst hih
      rw [get?_modifyAt_same, hget]
      rfl
    · rw [get?_modifyAt_other _ _ _ _ hih, hget]
      rfl
  have hev : (deliver parse handlers w h .connect).handles
      = modifyAt (fun x : Handle => { x with subscriptions := x.subscriptions ++ resultTopics }) i
          (modifyAt (fun x : Handle => { x with connected := true }) h w.handles) := by
    simp only [deliver, onConnect, setConnected, hget2, subscribeToResults, hc, settle]
  rw [hev, get?_modifyAt_same]
  cases hm : (modifyAt (fun x : Handle => { x with connected := true }) h w.handles).get? i with
  | none => rw [hm] at hsub; exact absurd hsub (by simp)
  | some x =>
    rw [hm] at hsub
    simp only [Option.map_some', Option.some.injEq] at hsub ⊢
    rw [hsub]

/-- An attempt uses the URL at `currentUrlIndex`: `tryConnect` opens one handle, for that URL. -/
theorem tryConnect_url (w : World) (call : Nat) (c : ConnectCall) (url : String)
    (hc : w.calls.get? call = some c)
    (hu : (urls w.service).get? c.currentUrlIndex = some url) :
    (tryConnect w call).handles = w.handles ++ [Handle.fresh url call] ∧
    urls (tryConnect w call).service = urls w.service := by
  simp only [tryConnect, hc, hu, Handle.fresh]
  exact ⟨trivial, rfl⟩

theorem connect_handles (w : World) :
    (connect w).1.handles.map (fun hd => hd.url)
      = w.handles.map (fun hd => hd.url)
          ++ ["ws://" ++ w.service.brokerHost ++ ":" ++ w.service.brokerPort ++ "/mqtt"] ∧
    urls (connect w).1.service = urls w.service := by
  have hcall : (w.calls ++ [({ currentUrlIndex := 0, promise := .pending } : ConnectCall)]).get?
      w.calls.length = some { currentUrlIndex := 0, promise := .pending } := by simp
  have h := tryConnect_url
    { w with calls := w.calls ++ [{ currentUrlIndex := 0, promise := .pending }] }
    w.calls.length _ ("ws://" ++ w.service.brokerHost ++ ":" ++ w.service.brokerPort ++ "/mqtt")
    hcall rfl
  simp only [connect]
  rw [h.1, h.2]
  simp [Handle.fresh]

/-- A failed attempt that is not the last one, followed by its fallback timer, opens one
handle, for the next URL of the list. -/
theorem retry_handles (w : World) (call idx h : Nat) (e : String)
    (hA : Attempting w call idx h) (hidx : idx + 1 < 3) :
    (fireTimer (onError w h e) call).handles.map (fun hd => hd.url)
      = w.handles.map (fun hd => hd.url) ++ ((urls w.service).get? (idx + 1)).toList ∧
    urls (fireTimer (onError w h e) call).service = urls w.service := by
  obtain ⟨hd, hget, hown⟩ := hA.handle
  obtain ⟨url, hurl⟩ := urls_get? w.service (idx + 1) hidx
  have hcalls : (modifyAt (fun c : ConnectCall => { c with currentUrlIndex := c.currentUrlIndex + 1 })
      call w.calls).get? call = some ⟨idx + 1, .pending⟩ := by
    rw [get?_modifyAt_same, hA.closure]
    rfl
  have hlen : (urls w.service).length = 3 := rfl
  have herr : onError w h e =
      { w with
        calls := modifyAt (fun c : ConnectCall =>
          { c with currentUrlIndex := c.currentUrlIndex + 1 }) call w.calls
        timers := w.timers ++ [call] } := by
    simp only [onError, hget, hown, hcalls, hlen, hidx, if_true]
  have hmem : call ∈ (onError w h e).timers := by rw [herr]; simp
  have ht := tryConnect_url
    { onError w h e with timers := (onError w h e).timers.erase call } call
    ⟨idx + 1, .pending⟩ url (by rw [herr]; exact hcalls) (by rw [herr]; exact hurl)
  have hfire : fireTimer (onError w h e) call
      = tryConnect { onError w h e with timers := (onError w h e).timers.erase call } call := by
    simp only [fireTimer, hmem, if_true]
  rw [hfire, ht.1, ht.2, hurl]
  constructor
  · rw [herr]
    simp [Handle.fresh]
  · rw [herr]

/-- With one outcome per attempt, three failing attempts open one handle for each candidate
URL, in the order of the list, whatever the session did before. -/
theorem attempts_in_order (parse : String → Option Value) (handlers : Handlers)
    (w : World) (e1 e2 e3 : String) :
    (connectAllFail parse handlers w e1 e2 e3).handles.map (fun hd => hd.url)
      = w.handles.map (fun hd => hd.url) ++ urls w.service := by
  have hc := connect_attempting w
  have hA0 : Attempting (connect w).1 (connect w).2 0 w.handles.length := by
    rw [hc.2.1]; exact hc.1
  have hh0 := connect_handles w
  have h1 := retry_attempting (connect w).1 (connect w).2 0 w.handles.length e1 hA0 (by omega)
  have hh1 := retry_handles (connect w).1 (connect w).2 0 w.handles.length e1 hA0 (by omega)
  have h2 := retry_attempting _ (connect w).2 1 (w.handles.length + 1) e2 h1.1 (by omega)
  have hh2 := retry_handles _ (connect w).2 1 (w.handles.length + 1) e2 h1.1 (by omega)
  have h3 := last_error _ (connect w).2 (w.handles.length + 2) e3 h2.1
  have hrun : connectAllFail parse handlers w e1 e2 e3
      = onError (fireTimer (onError (fireTimer (onError (connect w).1 w.handles.length e1)
          (connect w).2) (w.handles.length + 1) e2) (connect w).2)
          (w.handles.length + 2) e3 := by
    simp [connectAllFail, failThrice, run, step, deliver]
  rw [hrun, h3.2.2.1, hh2.1, hh1.2, hh1.1, hh0.1, hh0.2]
  simp [urls]

/-- C19 fails on the code: the `'connect'` listener subscribes on `this.client`, not on the
handle that connected. In `afterDashboardUnmount` the first handle was never ended and
`this.client` is null; when that handle connects again the listener sets `isConnected` and
then throws a `TypeError` at the first `this.client.subscribe`: no subscription is issued on
any handle. What holds: the eight topics of `resultTopics` contain every topic a component
registers a handler on, and whenever `this.client` holds a handle the listener issues the
eight subscriptions on that handle. -/
theorem connect_event_without_client :
    afterDashboardUnmount.service.client = none ∧
    afterDashboardUnmount.handles.map (fun hd => hd.ended) = [false, true] ∧
    (deliver parseJson plainHandlers afterDashboardUnmount 0 .connect).service.isConnected
      = true ∧
    (deliver parseJson plainHandlers afterDashboardUnmount 0 .connect).uncaught
      = [.typeError] ∧
    (deliver parseJson plainHandlers afterDashboardUnmount 0 .connect).handles.map
        (fun hd => hd.subscriptions)
      = afterDashboardUnmount.handles.map (fun hd => hd.subscriptions) ∧
    resultTopics.length = 8 ∧
    (∀ t ∈ viewTopics, t ∈ resultTopics) ∧
    (∀ (parse : String → Option Value) (handlers : Handlers) (w : World) (h i : Nat)
        (hd hi : Handle),
      w.handles.get? h = some hd → w.service.client = some i → w.handles.get? i = some hi →
      ((deliver parse handlers w h .connect).handles.get? i).map (fun x => x.subscriptions)
        = some (hi.subscriptions ++ resultTopics)) := by
  refine ⟨by decide, by decide, by decide, by decide, by decide, by decide, by decide, ?_⟩
  intro parse handlers w h i hd hi hh hc hget
  exact onConnect_subscribes parse handlers w h i hd hi hh hc hget

/-- C20 fails on the code: `currentUrlIndex` advances with every `'error'` event of a handle of
the call, not once per attempt. In `staleErrorRun` the first handle, never ended, fails again
while the timer of the third attempt is pending: the promise is rejected after two attempts
and the third `tryConnect` finds index 3, reads an undefined URL and throws, so the third URL
is never tried. In `doubleErrorRun` the first handle reports two errors before the fallback
timer fires and the second attempt uses the third URL, the second URL being skipped. What
holds: the list is fixed by host and port, the first attempt of every `connect()` uses its
first URL whatever happened before, and with one outcome per attempt three attempts use the
three URLs in order. -/
theorem error_events_skip_candidates :
    staleErrorRun.handles.map (fun hd => hd.url)
      = ["ws://broker:9001/mqtt", "ws://broker:9001"] ∧
    staleErrorRun.uncaught = [.typeError] ∧
    staleErrorRun.calls.map (fun c => c.currentUrlIndex) = [3] ∧
    doubleErrorRun.handles.map (fun hd => hd.url)
      = ["ws://broker:9001/mqtt", "mqtt://broker:9001"] ∧
    (∀ s : MQTTService, urls s =
      [ "ws://" ++ s.brokerHost ++ ":" ++ s.brokerPort ++ "/mqtt",
        "ws://" ++ s.brokerHost ++ ":" ++ s.brokerPort,
        "mqtt://" ++ s.brokerHost ++ ":" ++ s.brokerPort ]) ∧
    (∀ w : World, (connect w).1.handles.map (fun hd => hd.url)
      = w.handles.map (fun hd => hd.url)
          ++ ["ws://" ++ w.service.brokerHost ++ ":" ++ w.service.brokerPort ++ "/mqtt"]) ∧
    (∀ (parse : String → Option Value) (handlers : Handlers) (w : World) (e1 e2 e3 : String),
      (connectAllFail parse handlers w e1 e2 e3).handles.map (fun hd => hd.url)
        = w.handles.map (fun hd => hd.url) ++ urls w.service) := by
  refine ⟨by decide, by decide, by decide, by decide, fun _ => rfl,
    fun w => (connect_handles w).1, ?_⟩
  intro parse handlers w e1 e2 e3
  exact attempts_in_order parse handlers w e1 e2 e3

/-! ## The command facade: topics and payloads -/

theorem publishes_modifyAt (f : Handle → Handle) (entry : Topic × Option String) (i : Nat)
    (l : List Handle) (hi : i < l.length)
    (hf : ∀ hd, (f hd).published = hd.published ++ [entry]) :
    ((modifyAt f i l).flatMap (fun h => h.published)).length
      = (l.flatMap (fun h => h.published)).length + 1 := by
  induction l generalizing i with
  | nil => simp at hi
  | cons x xs ih =>
    cases i with
    | zero => simp [modifyAt, hf]; omega
    | succ k =>
      have hk : k < xs.length := by simpa using hi
      have := ih k hk
      simp only [modifyAt, List.flatMap_cons, List.length_append, this]
      omega

/-- A facade method called on a connected session whose `client` holds handle `i`. -/
theorem run_connected (c : Command) (w : World) (i : Nat)
    (hconn : w.service.isConnected = true) (hclient : w.service.client = some i) :
    c.run w = .ok { w with
      handles := modifyAt
        (fun h => { h with published := h.published ++ [(c.topic, stringify c.body)] })
        i w.handles } := by
  simp [Command.run, hconn, hclient]

/-- C21: on a connected session every facade method returns normally after exactly one
`publish`, on the handle held by `client`, to its request topic: the handle's `published` list
grows by the one entry `(topic, JSON text)`, the other handles and the service fields are
unchanged, and the number of publishes of the session grows by one. Every request topic starts
with `coreflux/factory01/traceability/`, the twelve methods of the claim have the listed
topics, and for the seven list, history, activity and statistics methods the topic
`request topic + /result` is in `resultTopics`, is no request topic, and differs from one
method to the other. -/
theorem command_publishes_once (c : Command) (w : World) (i : Nat)
    (hconn : w.service.isConnected = true) (hclient : w.service.client = some i)
    (hlive : i < w.handles.length) :
    (∃ w2 : World, c.run w = .ok w2 ∧ w2.service = w.service ∧
      w2.handles.length = w.handles.length ∧
      (w2.handles.get? i).map (fun hd => hd.published)
        = (w.handles.get? i).map (fun hd => hd.published ++ [(c.topic, stringify c.body)]) ∧
      (∀ j, j ≠ i → w2.handles.get? j = w.handles.get? j) ∧
      w2.publishes.length = w.publishes.length + 1) ∧
    requestPrefix.toList <+: c.topic.toList ∧
    (Command.listParts.topic = requestPrefix ++ "part/list" ∧
     (∀ v, (Command.createPart v).topic = requestPrefix ++ "part/create") ∧
     (∀ p s, (Command.updatePartStatus p s).topic = requestPrefix ++ "part/updatestatus") ∧
     (∀ p, (Command.deletePart p).topic = requestPrefix ++ "part/delete") ∧
     (∀ v, (Command.recordPartMovement v).topic = requestPrefix ++ "movement/record") ∧
     Command.listMovements.topic = requestPrefix ++ "movement/list" ∧
     (∀ p, (Command.getPartHistory p).topic = requestPrefix ++ "part/history") ∧
     Command.listStations.topic = requestPrefix ++ "station/list" ∧
     (∀ v, (Command.createStation v).topic = requestPrefix ++ "station/create") ∧
     (∀ s t, (Command.getStationActivity s t).topic = requestPrefix ++ "station/activity") ∧
     Command.listOperators.topic = requestPrefix ++ "operator/list" ∧
     Command.getSystemStats.topic = requestPrefix ++ "system/stats") ∧
    (∀ p s t : Value,
      (∀ q ∈ queries p s t, q.topic ++ "/result" ∈ resultTopics) ∧
      (∀ q ∈ queries p s t, ∀ c2 : Command, c2.topic ≠ q.topic ++ "/result") ∧
      ((queries p s t).map (fun q => q.topic ++ "/result")).Nodup) := by
  refine ⟨⟨_, run_connected c w i hconn hclient, rfl, length_modifyAt _ _ _, ?_, ?_, ?_⟩,
    ?_, ?_, ?_⟩
  · rw [get?_modifyAt_same]
    cases w.handles.get? i <;> rfl
  · intro j hj
    exact get?_modifyAt_other _ _ _ _ hj
  · exact publishes_modifyAt _ (c.topic, stringify c.body) i w.handles hlive (fun _ => rfl)
  · cases c <;> simp only [Command.topic] <;> decide
  · refine ⟨by decide, fun _ => ?_, fun _ _ => ?_, fun _ => ?_, fun _ => ?_, by decide,
      fun _ => ?_, by decide, fun _ => ?_, fun _ _ => ?_, by decide, by decide⟩ <;>
      simp only [Command.topic] <;> decide
  · intro p s t
    refine ⟨?_, ?_, ?_⟩
    · intro q hq
      simp only [queries, List.mem_cons, List.mem_singleton, List.not_mem_nil, or_false] at hq
      rcases hq with h | h | h | h | h | h | h <;> subst h <;> simp only [Command.topic] <;>
        decide
    · intro q hq c2
      simp only [queries, List.mem_cons, List.mem_singleton, List.not_mem_nil, or_false] at hq
      rcases hq with h | h | h | h | h | h | h <;> subst h <;> cases c2 <;>
        simp only [Command.topic] <;> decide
    · simp only [queries, List.map, Command.topic]
      decide

/-- On a session connected by its first attempt, `listParts()` publishes once on handle 0. -/
theorem command_publishes_once_witness :
    connectedSession.service.isConnected = true ∧
    connectedSession.service.client = some 0 ∧
    (Command.listParts.run connectedSession).toOption.map World.publishes
      = some [("coreflux/factory01/traceability/part/list", some "\x7b\x7d")] ∧
    (∃ w2 : World, Command.listParts.run connectedSession = .ok w2 ∧
      w2.publishes.length = connectedSession.publishes.length + 1) :=
  ⟨by decide, by decide, by decide,
    (command_publishes_once .listParts connectedSession 0 (by decide) (by decide)
      (by decide)).1.imp (fun _ h => ⟨h.1, h.2.2.2.2.2⟩)⟩

/-- C22: on a connected session the payload of the one publish of a facade method is
`JSON.stringify` of the method's object: the empty object (text `\x7b\x7d`) for `listParts`,
`listStations`, `listOperators`, `listMovements` and `getSystemStats`; `part_id` and `status`
for `updatePartStatus`; `part_id` for `deletePart` and `getPartHistory`; `station_id` and
`time_period` for `getStationActivity`, `time_period` being `'24 hours'` when the argument is
omitted and the argument otherwise; the argument itself for `createPart`,
`recordPartMovement` and `createStation`. The object MovementTracker submits has exactly the
six keys `part_id`, `from_station_id`, `to_station_id`, `movement_type`, `operator_id`,
`notes`, and all six are written to the payload. -/
theorem command_payload_shape (c : Command) (w : World) (i : Nat) (hd : Handle)
    (hconn : w.service.isConnected = true) (hclient : w.service.client = some i)
    (hget : w.handles.get? i = some hd) :
    (∃ w2 : World, c.run w = .ok w2 ∧
      (w2.handles.get? i).map (fun x => x.published)
        = some (hd.published ++ [(c.topic, stringify c.body)])) ∧
    (∀ q ∈ [Command.listParts, .listStations, .listOperators, .listMovements, .getSystemStats],
      q.body = .obj [] ∧ stringify q.body = some "\x7b\x7d") ∧
    (∀ p s, (Command.updatePartStatus p s).body = .obj [("part_id", p), ("status", s)]) ∧
    (∀ p, (Command.deletePart p).body = .obj [("part_id", p)]) ∧
    (∀ p, (Command.getPartHistory p).body = .obj [("part_id", p)]) ∧
    (∀ s, (Command.getStationActivity s .undefined).body
      = .obj [("station_id", s), ("time_period", .str "24 hours")]) ∧
    (∀ s t, t ≠ .undefined →
      (Command.getStationActivity s t).body = .obj [("station_id", s), ("time_period", t)]) ∧
    (∀ v, (Command.createPart v).body = v ∧ (Command.recordPartMovement v).body = v ∧
      (Command.createStation v).body = v) ∧
    (∀ a b c d e f : String,
      (Command.recordPartMovement (movementFormData a b c d e f)).body.keys
        = ["part_id", "from_station_id", "to_station_id", "movement_type", "operator_id",
           "notes"] ∧
      stringify (Command.recordPartMovement (movementFormData a b c d e f)).body
        = some ("\x7b" ++ ",".intercalate
            [ quote "part_id" ++ ":" ++ quote a, quote "from_station_id" ++ ":" ++ quote b,
              quote "to_station_id" ++ ":" ++ quote c, quote "movement_type" ++ ":" ++ quote d,
              quote "operator_id" ++ ":" ++ quote e, quote "notes" ++ ":" ++ quote f ]
            ++ "\x7d")) := by
  refine ⟨⟨_, run_connected c w i hconn hclient, ?_⟩, ?_, fun _ _ => rfl, fun _ => rfl,
    fun _ => rfl, fun _ => rfl, ?_, fun _ => ⟨rfl, rfl, rfl⟩, ?_⟩
  · rw [get?_modifyAt_same, hget]
    rfl
  · intro q hq
    simp only [List.mem_cons, List.mem_singleton, List.not_mem_nil, or_false] at hq
    rcases hq with h | h | h | h | h <;> subst h <;> exact ⟨rfl, by decide⟩
  · intro s t ht
    cases t <;> first | exact absurd rfl ht | rfl
  · intro a b c d e f
    refine ⟨rfl, ?_⟩
    simp [Command.body, movementFormData, stringify, stringifyFields]

/-- On a session connected by its first attempt, the movement that MovementTracker submits
is published with its six fields. -/
theorem command_payload_shape_witness :
    connectedSession.service.isConnected = true ∧
    connectedSession.service.client = some 0 ∧
    connectedSession.handles.get? 0 = some (Handle.connectedFresh "ws://localhost:5000/mqtt") ∧
    ∃ w2 : World,
      (Command.recordPartMovement
        (movementFormData "P1" "ST01" "ST02" "transfer" "OP1" "")).run connectedSession
          = .ok w2 ∧
      (w2.handles.get? 0).map (fun x => x.published)
        = some [("coreflux/factory01/traceability/movement/record",
            some ("\x7b\"part_id\":\"P1\",\"from_station_id\":\"ST01\"," ++
              "\"to_station_id\":\"ST02\",\"movement_type\":\"transfer\"," ++
              "\"operator_id\":\"OP1\",\"notes\":\"\"\x7d"))] :=
  ⟨by decide, by decide, by decide,
    (command_payload_shape
      (.recordPartMovement (movementFormData "P1" "ST01" "ST02" "transfer" "OP1" ""))
      connectedSession 0 (Handle.connectedFresh "ws://localhost:5000/mqtt")
      (by decide) (by decide) (by decide)).1.imp
      (fun _ h => ⟨h.1, h.2.trans (by decide)⟩)⟩

/-! ## The dashboard's result handlers -/

theorem lookup_setField_same (fields : List (String × Value)) (key : String) (v : Value) :
    lookupField (setField fields key v) key = some v := by
  induction fields with
  | nil => simp [setField, lookupField, List.lookup]
  | cons e rest ih =>
    obtain ⟨k, old⟩ := e
    by_cases h : k = key
    · simp [setField, lookupField, h, List.lookup]
    · have h2 : (key == k) = false := by simpa using fun hh => h hh.symm
      simpa [setField, lookupField, h, List.lookup, h2] using ih

theorem lookup_setField_other (fields : List (String × Value)) (key other : String) (v : Value)
    (hne : other ≠ key) :
    lookupField (setField fields key v) other = lookupField fields other := by
  induction fields with
  | nil =>
    have h2 : (other == key) = false := by simpa using hne
    simp [setField, lookupField, List.lookup, h2]
  | cons e rest ih =>
    obtain ⟨k, old⟩ := e
    by_cases h : k = key
    · have h2 : (other == key) = false := by simpa using hne
      simp [setField, lookupField, h, List.lookup, h2]
    · by_cases h3 : other = k
      · simp [setField, lookupField, h, List.lookup, h3]
      · have h4 : (other == k) = false := by simpa using h3
        simpa [setField, lookupField, h, List.lookup, h4] using ih

/-- C23: for every object `x` (not null, not an array), `handleSystemStats(x)` and
`handleSystemStats([x])` leave the dashboard in the same state: `systemStats` is `x` and
`lastUpdate` is the time of the call; nothing else changes. -/
theorem handleSystemStats_normalizes (now : Nat) (d : Dashboard)
    (fields : List (String × Value)) :
    handleSystemStats now d (.obj fields) = handleSystemStats now d (.arr [.obj fields]) ∧
    (handleSystemStats now d (.obj fields)).systemStats = .obj fields ∧
    (handleSystemStats now d (.arr [.obj fields])).systemStats = .obj fields ∧
    (handleSystemStats now d (.obj fields)).lastUpdate = some now ∧
    (handleSystemStats now d (.arr [.obj fields])).lastUpdate = some now ∧
    (handleSystemStats now d (.obj fields)).stationActivity = d.stationActivity ∧
    (handleSystemStats now d (.obj fields)).movementList = d.movementList :=
  ⟨rfl, rfl, rfl, rfl, rfl, rfl, rfl⟩

/-- C27, the code at an array of eleven activities: `data.slice(0, 10)` stores the first ten
(numbers 0 to 9) as `stationActivity.recent` and drops the last one, where the last ten are
numbers 1 to 10. For every array the stored value is its first ten elements, which is the whole
array when it has ten or fewer; the other fields of `stationActivity` and of the dashboard are
left as they were, and a payload that is not an array changes nothing. -/
theorem handleStationActivity_keeps_first_ten :
    activityNumbers
        ((lookupField (handleStationActivity dashboardWithActivity elevenActivities).stationActivity
          "recent").getD .undefined)
      = [0, 1, 2, 3, 4, 5, 6, 7, 8, 9] ∧
    activityNumbers (.arr (elevenActivities.items.drop (elevenActivities.items.length - 10)))
      = [1, 2, 3, 4, 5, 6, 7, 8, 9, 10] ∧
    (∀ (d : Dashboard) (items : List Value),
      lookupField (handleStationActivity d (.arr items)).stationActivity "recent"
        = some (.arr (items.take 10))) ∧
    (∀ (d : Dashboard) (items : List Value), items.length ≤ 10 →
      lookupField (handleStationActivity d (.arr items)).stationActivity "recent"
        = some (.arr items)) ∧
    (∀ (d : Dashboard) (items : List Value) (key : String), key ≠ "recent" →
      lookupField (handleStationActivity d (.arr items)).stationActivity key
        = lookupField d.stationActivity key) ∧
    (∀ (d : Dashboard) (items : List Value),
      (handleStationActivity d (.arr items)).systemStats = d.systemStats ∧
      (handleStationActivity d (.arr items)).lastUpdate = d.lastUpdate ∧
      (handleStationActivity d (.arr items)).movementList = d.movementList) ∧
    (∀ (d : Dashboard) (data : Value), isArray data = false →
      handleStationActivity d data = d) := by
  refine ⟨by decide, by decide, ?_, ?_, ?_, fun _ _ => ⟨rfl, rfl, rfl⟩, ?_⟩
  · intro d items
    exact lookup_setField_same _ _ _
  · intro d items hlen
    have h : lookupField (handleStationActivity d (.arr items)).stationActivity "recent"
        = some (.arr (items.take 10)) := lookup_setField_same _ _ _
    rw [List.take_of_length_le hlen] at h
    exact h
  · intro d items key hne
    exact lookup_setField_other _ _ _ _ hne
  · intro d data hdata
    simp [handleStationActivity, hdata]

theorem notOlder_iff (date : Value → Int) (a b : Value) :
    notOlder date a b ↔ date (b.field "timestamp") ≤ date (a.field "timestamp") := by
  unfold notOlder compareByTimestamp
  omega

theorem sorted_by_timestamp (date : Value → Int) (l : List Value) :
    (l.insertionSort (notOlder date)).Pairwise (notOlder date) := by
  haveI : IsTotal Value (notOlder date) :=
    ⟨fun a b => by rw [notOlder_iff, notOlder_iff]; omega⟩
  haveI : IsTrans Value (notOlder date) :=
    ⟨fun a b c hab hbc => by rw [notOlder_iff] at *; omega⟩
  exact List.sorted_insertionSort (notOlder date) l

/-- C26: for every reading `date` of the timestamps as time values and every `movementList`
of `n` movements, `recentMovements` has `min 5 n` elements, is in non-increasing order of
timestamp, is a sub-multiset of `movementList`, and together with the movements it leaves out
is a rearrangement of `movementList`; no movement left out is newer than an included one.
The sort runs on a copy: the state is the same after the expression is evaluated. With seven
movements at times 5, 9, 1, 9, 3, 7, 2 the result is those at 9, 9, 7, 5, 3, the two at time 9
in their order of arrival. -/
theorem recentMovements_most_recent (date : Value → Int) (movementList : List Value) :
    (recentMovements date movementList).length = min 5 movementList.length ∧
    (recentMovements date movementList).Pairwise
      (fun a b => date (b.field "timestamp") ≤ date (a.field "timestamp")) ∧
    (recentMovements date movementList).Subperm movementList ∧
    (recentMovements date movementList ++ olderMovements date movementList).Perm movementList ∧
    (∀ a ∈ recentMovements date movementList, ∀ b ∈ olderMovements date movementList,
      date (b.field "timestamp") ≤ date (a.field "timestamp")) ∧
    (∀ d : Dashboard, (renderRecentMovements date d).1 = d ∧
      (renderRecentMovements date d).2 = recentMovements date d.movementList) ∧
    partIds (recentMovements epochOf sevenMovements)
      = [some "\"b\"", some "\"d\"", some "\"f\"", some "\"a\"", some "\"e\""] := by
  have hsorted := sorted_by_timestamp date movementList
  have hperm := List.perm_insertionSort (notOlder date) movementList
  refine ⟨?_, ?_, ?_, ?_, ?_, fun _ => ⟨rfl, rfl⟩, by decide⟩
  · simp [recentMovements, List.length_take, List.length_insertionSort]
  · have h := hsorted.sublist (List.take_sublist 5 _)
    exact h.imp (fun hab => (notOlder_iff date _ _).mp hab)
  · exact (List.take_sublist 5 _).subperm.trans hperm.subperm
  · unfold recentMovements olderMovements
    rw [List.take_append_drop]
    exact hperm
  · intro a ha b hb
    have h : ((movementList.insertionSort (notOlder date)).take 5 ++
        (movementList.insertionSort (notOlder date)).drop 5).Pairwise (notOlder date) := by
      rw [List.take_append_drop]
      exact hsorted
    exact (notOlder_iff date a b).mp ((List.pairwise_append.mp h).2.2 a ha b hb)

/-! ## Registries with the same handlers -/

theorem eraseIdx_indexOf (l : List Callback) (h : Callback) :
    (if indexOf l h > -1 then l.eraseIdx (indexOf l h).toNat else l) = l.erase h := by
  by_cases hm : h ∈ l
  · obtain ⟨pre, post, hn, hl, he⟩ := List.exists_erase_eq hm
    have hidx := indexOf_first pre post h hn
    have hpos : indexOf (pre ++ h :: post) h > -1 := by rw [hidx]; omega
    rw [he, hl, if_pos hpos, hidx]
    simpa using eraseIdx_first pre post h
  · rw [indexOf_of_not_mem l h hm, List.erase_of_not_mem hm]
    simp

theorem handlersOn_subscribe (m : Registry) (t u : Topic) (cb : Callback) :
    (subscribe m t cb).handlersOn u
      = if u = t then m.handlersOn t ++ [cb] else m.handlersOn u := by
  by_cases h : u = t
  · subst h
    simp [Registry.handlersOn, get_subscribe_same]
  · simp [Registry.handlersOn, get_subscribe_other m t u cb h, h]

theorem handlersOn_unsubscribe (m : Registry) (t u : Topic) (cb : Callback) :
    (unsubscribe m t cb).handlersOn u
      = if u = t then (m.handlersOn t).erase cb else m.handlersOn u := by
  by_cases h : u = t
  · subst h
    rw [if_pos rfl, ← eraseIdx_indexOf]
    unfold unsubscribe Registry.handlersOn
    cases hget : m.get u with
    | none => simp [Registry.has, hget, indexOf]
    | some l =>
      by_cases hidx : indexOf l cb > -1
      · simp [Registry.has, hget, hidx, Registry.get_set_same]
      · simp [Registry.has, hget, hidx]
  · simp [Registry.handlersOn, get_unsubscribe_other m t u cb h, h]

theorem same_applyOp (r1 r2 : Registry) (op : Op) (h : r1.same r2) :
    (applyOp r1 op).same (applyOp r2 op) := by
  intro u
  cases op with
  | subscribe t cb => simp only [applyOp, handlersOn_subscribe, h u, h t]
  | unsubscribe t cb => simp only [applyOp, handlersOn_unsubscribe, h u, h t]

theorem same_applyOps (ops : List Op) (r1 r2 : Registry) (h : r1.same r2) :
    (applyOps r1 ops).same (applyOps r2 ops) := by
  induction ops generalizing r1 r2 with
  | nil => exact h
  | cons op rest ih => exact ih _ _ (same_applyOp r1 r2 op h)

theorem lookup_handlersOn (m : Registry) (t : Topic) (k : Nat) :
    ((m.get t).bind (fun callbacks => callbacks.get? k)) = (m.handlersOn t).get? k := by
  unfold Registry.handlersOn
  cases m.get t <;> simp

/-- The `forEach` loop makes the same calls on registries with the same handlers. -/
theorem same_forEachFrom (handlers : Handlers) (topic : Topic) (data : Value) (n k : Nat)
    (r1 r2 : Registry) (invoked : List (Callback × Value)) (h : r1.same r2) :
    (forEachFrom handlers topic data n k r1 invoked).invoked
      = (forEachFrom handlers topic data n k r2 invoked).invoked ∧
    (forEachFrom handlers topic data n k r1 invoked).thrown
      = (forEachFrom handlers topic data n k r2 invoked).thrown ∧
    (forEachFrom handlers topic data n k r1 invoked).subscribers.same
      (forEachFrom handlers topic data n k r2 invoked).subscribers := by
  induction n generalizing k r1 r2 invoked with
  | zero => exact ⟨rfl, rfl, h⟩
  | succ n ih =>
    have hl : ((r1.get topic).bind (fun callbacks => callbacks.get? k))
        = ((r2.get topic).bind (fun callbacks => callbacks.get? k)) := by
      rw [lookup_handlersOn, lookup_handlersOn, h topic]
    unfold forEachFrom
    rw [hl]
    cases hk : (r2.get topic).bind (fun callbacks => callbacks.get? k) with
    | none => exact ih (k + 1) r1 r2 invoked h
    | some cb =>
      dsimp only
      by_cases ht : (handlers cb data).throws = true
      · simp only [ht, if_true]
        exact ⟨trivial, trivial, same_applyOps _ r1 r2 h⟩
      · simp only [ht]
        exact ih (k + 1) _ _ _ (same_applyOps _ r1 r2 h)

theorem handleMessageTry_of_parsed (parse : String → Option Value) (handlers : Handlers)
    (m : Registry) (topic : Topic) (message : String) (data : Value)
    (hp : parse message = some data) :
    handleMessageTry parse handlers m topic message
      = forEachFrom handlers topic data (m.handlersOn topic).length 0 m [] := by
  unfold handleMessageTry Registry.handlersOn
  rw [hp]
  cases hget : m.get topic with
  | none => simp [Registry.has, hget, forEachFrom]
  | some l => simp [Registry.has, hget]

/-- `handleMessage` makes the same calls, and catches the same exception, on registries with
the same handlers; the registries it leaves behind have the same handlers again. -/
theorem same_handleMessage (parse : String → Option Value) (handlers : Handlers)
    (r1 r2 : Registry) (topic : Topic) (message : String) (h : r1.same r2) :
    (handleMessage parse handlers r1 topic message).invoked
      = (handleMessage parse handlers r2 topic message).invoked ∧
    (handleMessage parse handlers r1 topic message).caught
      = (handleMessage parse handlers r2 topic message).caught ∧
    (handleMessage parse handlers r1 topic message).thrown
      = (handleMessage parse handlers r2 topic message).thrown ∧
    (handleMessage parse handlers r1 topic message).subscribers.same
      (handleMessage parse handlers r2 topic message).subscribers := by
  cases hp : parse message with
  | none => simpa [handleMessage, handleMessageTry, hp] using h
  | some data =>
    have h1 := handleMessageTry_of_parsed parse handlers r1 topic message data hp
    have h2 := handleMessageTry_of_parsed parse handlers r2 topic message data hp
    have hc := same_forEachFrom handlers topic data (r2.handlersOn topic).length 0 r1 r2 [] h
    rw [h topic] at h1
    unfold handleMessage
    rw [h1, h2]
    dsimp only
    rw [hc.2.1]
    cases (forEachFrom handlers topic data (r2.handlersOn topic).length 0 r2 []).thrown with
    | none => exact ⟨hc.1, rfl, rfl, hc.2.2⟩
    | some e => exact ⟨hc.1, rfl, rfl, hc.2.2⟩

theorem same_dispatchAll (parse : String → Option Value) (handlers : Handlers)
    (messages : List (Topic × String)) (r1 r2 : Registry) (h : r1.same r2) :
    dispatchAll parse handlers r1 messages = dispatchAll parse handlers r2 messages := by
  induction messages generalizing r1 r2 with
  | nil => rfl
  | cons m rest ih =>
    obtain ⟨topic, message⟩ := m
    have hc := same_handleMessage parse handlers r1 r2 topic message h
    simp only [dispatchAll]
    rw [hc.1, hc.2.1, ih _ _ hc.2.2.2]

/-- A message for a topic without handlers: no call, the registry stays as it is. -/
theorem handleMessage_no_handlers (parse : String → Option Value) (handlers : Handlers)
    (m : Registry) (topic : Topic) (message : String) (hnone : m.handlersOn topic = []) :
    (handleMessage parse handlers m topic message).invoked = [] ∧
    (handleMessage parse handlers m topic message).subscribers = m := by
  cases hp : parse message with
  | none => simp [handleMessage, handleMessageTry, hp]
  | some data =>
    have h1 := handleMessageTry_of_parsed parse handlers m topic message data hp
    rw [hnone] at h1
    unfold handleMessage
    rw [h1]
    simp [forEachFrom]

theorem same_of_empty_absent (r1 r2 : Registry) (topic : Topic)
    (hempty : r1.get topic = some []) (habsent : r2.get topic = none)
    (hothers : ∀ u, u ≠ topic → r1.get u = r2.get u) : r1.same r2 := by
  intro u
  by_cases hu : u = topic
  · subst hu
    simp [Registry.handlersOn, hempty, habsent]
  · simp [Registry.handlersOn, hothers u hu]

/-- C24: let `r1` map `topic` to the empty handler list and `r2` have no entry for `topic`,
the two agreeing on every other topic. A message for `topic` invokes no handler and leaves
either registry as it is; a message for any topic leads to the same calls in the same order
and the same caught exception, and leaves registries that again hold the same handlers for
every topic; so every sequence of messages is dispatched alike. The empty entry is what
`unsubscribe` leaves when it removes the only handler of `topic`. -/
theorem empty_entry_equivalent_to_absent (parse : String → Option Value) (handlers : Handlers)
    (r1 r2 : Registry) (topic : Topic)
    (hempty : r1.get topic = some []) (habsent : r2.get topic = none)
    (hothers : ∀ u, u ≠ topic → r1.get u = r2.get u) :
    (∀ message,
      (handleMessage parse handlers r1 topic message).invoked = [] ∧
      (handleMessage parse handlers r2 topic message).invoked = [] ∧
      (handleMessage parse handlers r1 topic message).subscribers = r1 ∧
      (handleMessage parse handlers r2 topic message).subscribers = r2) ∧
    (∀ t message,
      (handleMessage parse handlers r1 t message).invoked
        = (handleMessage parse handlers r2 t message).invoked ∧
      (handleMessage parse handlers r1 t message).caught
        = (handleMessage parse handlers r2 t message).caught ∧
      (handleMessage parse handlers r1 t message).thrown
        = (handleMessage parse handlers r2 t message).thrown ∧
      ∀ u, (handleMessage parse handlers r1 t message).subscribers.handlersOn u
        = (handleMessage parse handlers r2 t message).subscribers.handlersOn u) ∧
    (∀ messages, dispatchAll parse handlers r1 messages
      = dispatchAll parse handlers r2 messages) ∧
    (∀ (r3 : Registry) (h : Callback), r3.get topic = some [h] →
      (∀ u, u ≠ topic → r3.get u = r2.get u) →
      (unsubscribe r3 topic h).get topic = some [] ∧
      ∀ messages, dispatchAll parse handlers (unsubscribe r3 topic h) messages
        = dispatchAll parse handlers r2 messages) := by
  have hsame := same_of_empty_absent r1 r2 topic hempty habsent hothers
  refine ⟨?_, ?_, ?_, ?_⟩
  · intro message
    have h1 := handleMessage_no_handlers parse handlers r1 topic message
      (by simp [Registry.handlersOn, hempty])
    have h2 := handleMessage_no_handlers parse handlers r2 topic message
      (by simp [Registry.handlersOn, habsent])
    exact ⟨h1.1, h2.1, h1.2, h2.2⟩
  · intro t message
    have hc := same_handleMessage parse handlers r1 r2 t message hsame
    exact ⟨hc.1, hc.2.1, hc.2.2.1, hc.2.2.2⟩
  · intro messages
    exact same_dispatchAll parse handlers messages r1 r2 hsame
  · intro r3 h hget hoth
    have hgone : (unsubscribe r3 topic h).get topic = some [] := by
      simpa using get_unsubscribe_first r3 topic h [] [] (by simp) (by simpa using hget)
    refine ⟨hgone, fun messages => ?_⟩
    refine same_dispatchAll parse handlers messages _ _
      (same_of_empty_absent _ r2 topic hgone habsent ?_)
    intro u hu
    rw [get_unsubscribe_other r3 topic u h hu]
    exact hoth u hu

/-- The part-list result topic with an empty entry and without an entry: a part list is
dispatched to nobody in both, a station list to handler 7 in both. -/
theorem empty_entry_equivalent_to_absent_witness :
    emptyEntryRegistry.get partListResult = some [] ∧
    absentEntryRegistry.get partListResult = none ∧
    dispatchAll parseJson plainHandlers emptyEntryRegistry
        [ (partListResult, onePartPayload),
          ("coreflux/factory01/traceability/station/list/result", "[]") ]
      = [([], none), ([(7, .arr [])], none)] ∧
    dispatchAll parseJson plainHandlers emptyEntryRegistry
        [ (partListResult, onePartPayload),
          ("coreflux/factory01/traceability/station/list/result", "[]") ]
      = dispatchAll parseJson plainHandlers absentEntryRegistry
        [ (partListResult, onePartPayload),
          ("coreflux/factory01/traceability/station/list/result", "[]") ] :=
  ⟨by decide, by decide, rfl,
    (empty_entry_equivalent_to_absent parseJson plainHandlers emptyEntryRegistry
      absentEntryRegistry partListResult (by decide) (by decide)
      (fun u hu => by
        have h2 : (u == partListResult) = false := by simpa using hu
        simp [emptyEntryRegistry, absentEntryRegistry, Registry.get, List.lookup, h2])).2.2.1 _⟩

/-- C30: when `h` is not registered on `topic`, `subscribe(topic, h)` followed by
`unsubscribe(topic, h)` leaves every topic with the handler list it had (an absent entry
counting as the empty list), and from then on every message, and every sequence of messages,
is dispatched as it would have been without the two calls: same calls in the same order, same
caught exception, same handlers afterwards. -/
theorem subscribe_unsubscribe_round_trip (m : Registry) (topic : Topic) (h : Callback)
    (hnew : h ∉ m.handlersOn topic) :
    (∀ u, (unsubscribe (subscribe m topic h) topic h).handlersOn u = m.handlersOn u) ∧
    (∀ (parse : String → Option Value) (handlers : Handlers) (t : Topic) (message : String),
      (handleMessage parse handlers (unsubscribe (subscribe m topic h) topic h) t
          message).invoked
        = (handleMessage parse handlers m t message).invoked ∧
      (handleMessage parse handlers (unsubscribe (subscribe m topic h) topic h) t
          message).caught
        = (handleMessage parse handlers m t message).caught ∧
      (handleMessage parse handlers (unsubscribe (subscribe m topic h) topic h) t
          message).thrown
        = (handleMessage parse handlers m t message).thrown ∧
      ∀ u, (handleMessage parse handlers (unsubscribe (subscribe m topic h) topic h) t
          message).subscribers.handlersOn u
        = (handleMessage parse handlers m t message).subscribers.handlersOn u) ∧
    (∀ (parse : String → Option Value) (handlers : Handlers)
        (messages : List (Topic × String)),
      dispatchAll parse handlers (unsubscribe (subscribe m topic h) topic h) messages
        = dispatchAll parse handlers m messages) := by
  have hsame : (unsubscribe (subscribe m topic h) topic h).same m := by
    intro u
    rw [handlersOn_unsubscribe, handlersOn_subscribe, handlersOn_subscribe, if_pos rfl]
    by_cases hu : u = topic
    · subst hu
      rw [if_pos rfl, List.erase_append_right _ hnew]
      simp
    · rw [if_neg hu, if_neg hu]
  refine ⟨hsame, ?_, ?_⟩
  · intro parse handlers t message
    have hc := same_handleMessage parse handlers _ m t message hsame
    exact ⟨hc.1, hc.2.1, hc.2.2.1, hc.2.2.2⟩
  · intro parse handlers messages
    exact same_dispatchAll parse handlers messages _ m hsame

/-- Handler 3 registered on the part-list result topic next to handlers 1 and 2, then
removed: a part list goes to handlers 1 and 2 as before. -/
theorem subscribe_unsubscribe_round_trip_witness :
    3 ∉ twoHandlerRegistry.handlersOn partListResult ∧
    (unsubscribe (subscribe twoHandlerRegistry partListResult 3) partListResult 3).handlersOn
        partListResult = [1, 2] ∧
    dispatchAll parseJson plainHandlers
        (unsubscribe (subscribe twoHandlerRegistry partListResult 3) partListResult 3)
        [(partListResult, onePartPayload)]
      = dispatchAll parseJson plainHandlers twoHandlerRegistry
        [(partListResult, onePartPayload)] :=
  ⟨by decide, by decide,
    (subscribe_unsubscribe_round_trip twoHandlerRegistry partListResult 3 (by decide)).2.2
      parseJson plainHandlers _⟩

/-! ## The poll tick of a connected view -/

/-- A `connect()` whose promise carries no reaction of the view: the call is made, and however
the promise settles nothing is scheduled. -/
theorem issue_unhandled (env : Env) (s : Supervisor) (a : Action) :
    issue env s a none none
      = { s with log := s.log ++ [(s.now, a)], promises := s.promises + 1 } := by
  unfold issue
  dsimp only [Supervisor.call]
  cases env.settles s.promises with
  | none => rfl
  | some p =>
    obtain ⟨t, ok⟩ := p
    cases ok <;> rfl

/-- C25: a tick of a view whose rendered state is 'connected', run when the service is not
ready, sets the state to 'connecting' and calls `connect()` once; nothing is scheduled for the
promise of that call, and the state after the tick is the same whether the promise is rejected,
resolved or never settled. The interval stays armed: the next tick is due 2 seconds later.
(PartsManager also counts the attempt in `retryCount`.) -/
theorem tick_reconnects_when_connection_lost (env : Env) (s : Supervisor)
    (hlost : env.ready s.now = false) :
    (checkConnectionStatus env .connected s).connectionStatus = .connecting ∧
    (checkConnectionStatus env .connected s).log = s.log ++ [(s.now, .connect)] ∧
    (checkConnectionStatus env .connected s).agenda = s.agenda ∧
    (checkConnectionStatus env .connected s).promises = s.promises + 1 ∧
    (checkConnectionStatus env .connected s).view = s.view ∧
    (checkConnectionStatus env .connected s).now = s.now ∧
    (checkConnectionStatus env .connected s).retryCount
      = (if s.view = .partsManager then s.retryCount + 1 else s.retryCount) ∧
    (∀ env2 : Env, env2.ready s.now = false →
      checkConnectionStatus env2 .connected s = checkConnectionStatus env .connected s) ∧
    (∀ due : Nat, (fire env s due (.tick .connected)).agenda
      = s.agenda ++ [(due + 2000, .tick .connected)]) := by
  have hform : ∀ e : Env, e.ready s.now = false →
      checkConnectionStatus e .connected s
        = { s with
            connectionStatus := .connecting
            retryCount := (if s.view = .partsManager then s.retryCount + 1 else s.retryCount)
            log := s.log ++ [(s.now, .connect)]
            promises := s.promises + 1 } := by
    intro e he
    unfold checkConnectionStatus
    simp only [he, issue_unhandled]
    by_cases hv : s.view = .partsManager <;> simp [hv]
  have h := hform env hlost
  refine ⟨by rw [h], by rw [h], by rw [h], by rw [h], by rw [h], by rw [h], by rw [h], ?_, ?_⟩
  · intro env2 h2
    rw [h, hform env2 h2]
  · intro due
    simp only [fire, Supervisor.schedule, h]

/-- The operators view whose connection dropped at 5000 ms: the tick at 6000 ms sets
'connecting' and calls `connect()`; the rejection at 8000 ms leaves the view in 'connecting',
with the next tick due. -/
theorem tick_reconnects_when_connection_lost_witness :
    (dropsAt 5000).ready lostView.now = false ∧
    lostView.connectionStatus = .connected ∧
    (checkConnectionStatus (dropsAt 5000) .connected lostView).connectionStatus = .connecting ∧
    (checkConnectionStatus (dropsAt 5000) .connected lostView).log
      = lostView.log ++ [(6000, .connect)] ∧
    (checkConnectionStatus (dropsAt 5000) .connected lostView).agenda = [] ∧
    (runUntil (dropsAt 5000) 8000 100 (mount (dropsAt 5000) .operatorsManager)).connectionStatus
      = .connecting ∧
    (runUntil (dropsAt 5000) 8000 100 (mount (dropsAt 5000) .operatorsManager)).agenda
      = [(18000, .stuckCheck .connecting), (10000, .tick .connecting)] :=
  ⟨by decide, by decide,
    (tick_reconnects_when_connection_lost (dropsAt 5000) lostView (by decide)).1,
    (tick_reconnects_when_connection_lost (dropsAt 5000) lostView (by decide)).2.1,
    (tick_reconnects_when_connection_lost (dropsAt 5000) lostView (by decide)).2.2.1,
    by decide, by decide⟩

/-! ## The candidate index and the `client` field along runs -/

/-- C28, the code when one handle reports three errors while a fallback timer is pending:
`currentUrlIndex` is 3 with two timers armed, the list has no URL at index 3, and the
`tryConnect` of the first timer throws a `TypeError` without opening a handle. The same happens
in `staleErrorRun`, where the error that moves the index to 3 comes from the first handle while
the timer of the third attempt is pending. In general `tryConnect` throws exactly when the
index of its call is 3 or more, and opens one handle otherwise. -/
theorem tryConnect_past_last_url :
    tripleErrorBeforeTimer.calls.map (fun c => c.currentUrlIndex) = [3] ∧
    tripleErrorBeforeTimer.timers = [0, 0] ∧
    tripleErrorBeforeTimer.uncaught = [] ∧
    (urls tripleErrorBeforeTimer.service).length = 3 ∧
    (urls tripleErrorBeforeTimer.service).get? 3 = none ∧
    (fireTimer tripleErrorBeforeTimer 0).uncaught = [.typeError] ∧
    (fireTimer tripleErrorBeforeTimer 0).handles.length
      = tripleErrorBeforeTimer.handles.length ∧
    staleErrorRun.calls.map (fun c => c.currentUrlIndex) = [3] ∧
    staleErrorRun.uncaught = [.typeError] ∧
    (∀ (w : World) (call : Nat) (c : ConnectCall), w.calls.get? call = some c →
      3 ≤ c.currentUrlIndex →
      (tryConnect w call).uncaught = w.uncaught ++ [.typeError] ∧
      (tryConnect w call).handles = w.handles) ∧
    (∀ (w : World) (call : Nat) (c : ConnectCall), w.calls.get? call = some c →
      c.currentUrlIndex < 3 →
      (tryConnect w call).uncaught = w.uncaught ∧
      (tryConnect w call).handles.length = w.handles.length + 1) := by
  refine ⟨by decide, by decide, by decide, by decide, by decide, by decide, by decide,
    by decide, by decide, ?_, ?_⟩
  · intro w call c hc hidx
    have hnone : (urls w.service).get? c.currentUrlIndex = none := by
      apply List.get?_eq_none.mpr
      simpa [urls] using hidx
    unfold tryConnect
    rw [hc]
    dsimp only
    rw [hnone]
    exact ⟨rfl, rfl⟩
  · intro w call c hc hidx
    have hlen : c.currentUrlIndex < (urls w.service).length := by simpa [urls] using hidx
    obtain ⟨url, hurl⟩ : ∃ url, (urls w.service).get? c.currentUrlIndex = some url :=
      ⟨_, List.get?_eq_get hlen⟩
    unfold tryConnect
    rw [hc]
    dsimp only
    rw [hurl]
    exact ⟨rfl, by simp⟩

/-- C29, the code on a reachable state: in `connectedWithoutClient` the `'connect'` event of
the first handle, opened by an earlier `connect()` and never ended, arrives after
`disconnect()` has set `client` to null. The listener sets `isConnected` and its
`subscribeToResults` throws a `TypeError`; from then on `isConnected` is true with `client`
null, and every facade method passes its `isConnected` check and throws a `TypeError` at
`this.client.publish`. `connect()` itself always leaves a handle in `client`, and
`disconnect()` clears `isConnected` together with a non-null `client`. -/
theorem connected_with_null_client :
    connectedWithoutClient.service.isConnected = true ∧
    connectedWithoutClient.service.client = none ∧
    connectedWithoutClient.uncaught = [.typeError] ∧
    connectedWithoutClient.handles.map (fun hd => (hd.connected, hd.ended))
      = [(true, false), (true, true)] ∧
    (∀ c : Command, c.run connectedWithoutClient = .error .typeError) ∧
    subscribeToResults connectedWithoutClient = .error .typeError ∧
    (∀ w : World, (connect w).1.service.client = some w.handles.length) ∧
    (∀ (w : World) (i : Nat), w.service.client = some i →
      (disconnect w).service.client = none ∧ (disconnect w).service.isConnected = false) := by
  have h1 : connectedWithoutClient.service.isConnected = true := by decide
  have h2 : connectedWithoutClient.service.client = none := by decide
  refine ⟨h1, h2, by decide, by decide, ?_, ?_, ?_, ?_⟩
  · intro c
    simp [Command.run, h1, h2]
  · simp [subscribeToResults, h2]
  · intro w
    simp [connect, tryConnect, urls]
  · intro w i hi
    simp [disconnect, hi]

end Traceability
